import Mathlib

/-!
Verification of the exogenesis colony engine (backend/game/colony.py).

Modelling conventions:
* Python floats are modelled as rationals; Python ints as integers.
* Comparisons that the source performs on square roots are expressed on the
  squared quantities (sqrt a < b iff a < b^2 for nonnegative a and b), so that
  every definition stays executable over the rationals.
* Quantities the source derives with trigonometry or square-root
  normalisation (spawn positions, detour point coordinates, steering
  directions, line-of-sight results) are passed in as explicit arguments;
  the claims settled here hold for every value of those arguments, in
  particular for the values the source computes.
* Wall-clock reads (time.time()) are passed in as an explicit current-time
  argument.
* src/backend/models.py is stale: it lacks classes that colony.py imports
  (ColonyTrait, OilPump, SteelFactory) and fields colony.py reads and writes
  (owner_id, hp, max_hp, trait, ...).  The record types below therefore
  follow the fields colony.py itself uses, together with spec section 3.
-/

namespace Exogenesis

/-- Python int() applied to a float: truncation toward zero. -/
def pytrunc (q : ℚ) : ℤ := if 0 ≤ q then ⌊q⌋ else ⌈q⌉

structure Vector2 where
  x : ℚ
  y : ℚ
deriving DecidableEq, Repr

structure Vector3 where
  x : ℚ
  y : ℚ
  z : ℚ
deriving DecidableEq, Repr

/-- Squared euclidean distance between Vector2 points.  The source
(Colony._distance_v2) returns the square root; all uses compared here are
against nonnegative bounds, so we work with the square. -/
def distSq2 (p1 p2 : Vector2) : ℚ := (p1.x - p2.x)^2 + (p1.y - p2.y)^2

/-- Squared euclidean distance between Vector3 points (see distSq2). -/
def distSq3 (p1 p2 : Vector3) : ℚ :=
  (p1.x - p2.x)^2 + (p1.y - p2.y)^2 + (p1.z - p2.z)^2

structure NaturalResources where
  oil : ℚ
  steel : ℚ
  water : ℚ
  temperature : ℚ
  oilStorage : ℚ
  steelStorage : ℚ
  waterStorage : ℚ
deriving DecidableEq, Repr

structure OilPump where
  id : String
  position : Vector2
  production : ℚ
deriving DecidableEq, Repr

structure SteelFactory where
  id : String
  position : Vector2
  production : ℚ
deriving DecidableEq, Repr

structure Planet where
  position : Vector3
  scale : ℚ
  rot : Vector3
  planetModelName : String
  planetMainBase : Vector2
  planetNaturalResources : NaturalResources
  oilPumps : Option (List OilPump)
  steelFactories : Option (List SteelFactory)
deriving DecidableEq, Repr

inductive ColonyLevel where
  | Colony
  | Settlement
  | Township
  | Metropolis
  | StarportHub
deriving DecidableEq, Repr

/-- The string value of a ColonyLevel enum member (models.ColonyLevel). -/
def levelValue : ColonyLevel → String
  | .Colony => "Colony"
  | .Settlement => "Settlement"
  | .Township => "Township"
  | .Metropolis => "Metropolis"
  | .StarportHub => "Starport Hub"

/-- Index of a level in COLONY_LEVEL_ORDER (colony.py lines 91-97).  Every
enum member occurs in the list, so the ValueError branches of the source are
dead. -/
def levelIndex : ColonyLevel → ℕ
  | .Colony => 0
  | .Settlement => 1
  | .Township => 2
  | .Metropolis => 3
  | .StarportHub => 4

structure FleetTarget where
  id : Option String
  position : Option Vector3
deriving DecidableEq, Repr

structure Fleet where
  id : String
  type : String
  label : Option String
  count : ℤ
  position : Vector3
  velocity : Vector3
  state : String
  tactic : String
  hpPool : Option ℚ
  maxHP : Option ℚ
  damage : Option ℚ
  speed : Option ℚ
  waypoints : Option (List Vector3)
  target : Option FleetTarget
  isAttacking : Bool
  combatWarmup : ℚ
  homePosition : Option Vector3
deriving DecidableEq, Repr

/-- One entry of Colony._action_events (colony.py _add_action_event).  The
random uuid id of the event is omitted: no claim observes it.  timestamp is
the wall-clock argument (the source stores it in milliseconds). -/
structure ActionEvent where
  colonyId : String
  colonyName : String
  message : String
  type : String
  timestamp : ℚ
deriving DecidableEq, Repr

structure ColonyModel where
  id : String
  name : String
  residents : ℤ
  color : String
  planet : Planet
  colonyLevel : ColonyLevel
  colonyFleet : Option (List Fleet)
  owner_id : Option String
  hp : ℚ
  max_hp : ℚ
  trait : String
  is_fighting : Bool
  defense_target_id : Option String
  defense_target_pos : Option Vector3
deriving DecidableEq, Repr

/-- The values appearing in colony.dict(): a tagged union over the field
types of ColonyModel, so that dictionaries can be diffed with decidable
equality. -/
inductive DVal where
  | vstr (s : String)
  | vint (n : ℤ)
  | vrat (q : ℚ)
  | vbool (b : Bool)
  | vostr (s : Option String)
  | vovec (v : Option Vector3)
  | vplanet (p : Planet)
  | vfleets (l : Option (List Fleet))
deriving DecidableEq, Repr

/-- colony.dict(): the top-level field dictionary of a ColonyModel, in
declaration order.  The pydantic enum field serialises to its string value;
nested models compare as whole values, which matches dict equality of their
serialisations. -/
def colonyDict (m : ColonyModel) : List (String × DVal) :=
  [ ("id", DVal.vstr m.id)
  , ("name", DVal.vstr m.name)
  , ("residents", DVal.vint m.residents)
  , ("color", DVal.vstr m.color)
  , ("planet", DVal.vplanet m.planet)
  , ("colonyLevel", DVal.vstr (levelValue m.colonyLevel))
  , ("colonyFleet", DVal.vfleets m.colonyFleet)
  , ("owner_id", DVal.vostr m.owner_id)
  , ("hp", DVal.vrat m.hp)
  , ("max_hp", DVal.vrat m.max_hp)
  , ("trait", DVal.vstr m.trait)
  , ("is_fighting", DVal.vbool m.is_fighting)
  , ("defense_target_id", DVal.vostr m.defense_target_id)
  , ("defense_target_pos", DVal.vovec m.defense_target_pos) ]

/-- Lookup in a dictionary modelled as an association list. -/
def dictGet (l : List (String × DVal)) (k : String) : Option DVal :=
  (l.find? (fun kv => kv.1 = k)).map (fun kv => kv.2)

/-- Python dict assignment d[k] = v: overwrite in place if the key exists,
append otherwise. -/
def dictSet (l : List (String × DVal)) (k : String) (v : DVal) :
    List (String × DVal) :=
  if l.any (fun kv => kv.1 = k) then
    l.map (fun kv => if kv.1 = k then (k, v) else kv)
  else
    l ++ [(k, v)]

/-- Engine-side wrapper state of a colony (class Colony of colony.py).
The per-fleet cooldown maps and parking-spot map are omitted: no claim
observes them. -/
structure ColonyW where
  colony : ColonyModel
  lastResidentsUpdate : ℚ
  prevState : List (String × DVal)
  hasChanges : Bool
  nextPumpId : ℤ
  nextFactoryId : ℤ
  actionEvents : List ActionEvent
  lastStructureBuildTime : ℚ
  lastFlankerBuildTime : ℚ
  lastFighterBuildTime : ℚ
  lastBomberBuildTime : ℚ
  lastScoutBuildTime : ℚ
  attackTargetColonyId : Option String
deriving DecidableEq, Repr

/-- Configuration surface read from config.json via module-level constants
(colony.py lines 20-88).  config.json is not part of src/, so the constants
are kept abstract; theorems quantify over the configuration and witnesses
use the fallback defaults hard-coded in colony.py. -/
structure LevelThresholds where
  residents : ℤ
  waterStorage : ℚ
  steelStorage : ℚ
  oilStorage : ℚ
  maxFleetGroups : ℤ
  unlockedFleetTypes : List String

structure DefenseStats where
  baseHp : ℚ
  defenseDps : ℚ

structure FleetStats where
  speed : ℚ
  maxHP : ℚ
  damage : ℚ
  patrolRadius : ℚ

structure Config where
  residentUpdateInterval : ℚ
  planetModelRadius : ℚ
  idealTemperature : ℚ
  temperatureTolerance : ℚ
  baseGrowthRate : ℚ
  buildingCapacityPerSteel : ℚ
  buildingCapacityPerOil : ℚ
  oilPumpSteelCost : ℚ
  oilPumpMaxPerPlanet : ℤ
  steelFactoryOilCost : ℚ
  steelFactoryMaxPerPlanet : ℤ
  minBuildingDistance : ℚ
  flankerGroupSize : ℤ
  flankerSteelCost : ℚ
  flankerOilCost : ℚ
  flankerBuildCooldown : ℚ
  fighterGroupSize : ℤ
  fighterSteelCost : ℚ
  fighterOilCost : ℚ
  fighterBuildCooldown : ℚ
  bomberGroupSize : ℤ
  bomberSteelCost : ℚ
  bomberOilCost : ℚ
  bomberBuildCooldown : ℚ
  scoutGroupSize : ℤ
  scoutSteelCost : ℚ
  scoutOilCost : ℚ
  scoutBuildCooldown : ℚ
  levelThresholds : ColonyLevel → Option LevelThresholds
  defenseStats : ColonyLevel → Option DefenseStats
  fleetStats : String → Option FleetStats

/-! Accessor and update helpers for the nested record fields the source
mutates in place. -/

def ColonyW.res (c : ColonyW) : NaturalResources :=
  c.colony.planet.planetNaturalResources

def ColonyW.setRes (c : ColonyW) (r : NaturalResources) : ColonyW :=
  { c with colony :=
    { c.colony with planet := { c.colony.planet with planetNaturalResources := r } } }

def ColonyW.pumps (c : ColonyW) : List OilPump :=
  c.colony.planet.oilPumps.getD []

def ColonyW.factories (c : ColonyW) : List SteelFactory :=
  c.colony.planet.steelFactories.getD []

def ColonyW.setPumps (c : ColonyW) (l : List OilPump) : ColonyW :=
  { c with colony :=
    { c.colony with planet := { c.colony.planet with oilPumps := some l } } }

def ColonyW.setFactories (c : ColonyW) (l : List SteelFactory) : ColonyW :=
  { c with colony :=
    { c.colony with planet := { c.colony.planet with steelFactories := some l } } }

/-- Colony._mark_changed -/
def markChanged (c : ColonyW) : ColonyW := { c with hasChanges := true }

/-- Colony._add_action_event -/
def addActionEvent (c : ColonyW) (message ty : String) (now : ℚ) : ColonyW :=
  { c with actionEvents :=
      c.actionEvents ++ [⟨c.colony.id, c.colony.name, message, ty, now⟩] }

/-- Colony.change_residents (colony.py lines 207-209). -/
def changeResidents (c : ColonyW) (delta : ℤ) : ColonyW :=
  markChanged
    { c with colony := { c.colony with residents := max 0 (c.colony.residents + delta) } }

/-- Colony.accumulate_resources (colony.py lines 291-308). -/
def accumulateResources (cfg : Config) (c : ColonyW) (timeDelta : ℚ) : ColonyW :=
  let r := c.res
  let ticks := timeDelta / cfg.residentUpdateInterval
  let r := { r with
    oilStorage := max 0 (r.oilStorage + r.oil * ticks)
    steelStorage := max 0 (r.steelStorage + r.steel * ticks)
    waterStorage := max 0 (r.waterStorage + r.water * ticks) }
  markChanged (c.setRes r)

/-- Colony.produce_oil_from_pumps (colony.py lines 377-389). -/
def produceOilFromPumps (cfg : Config) (c : ColonyW) (timeDelta : ℚ) : ColonyW :=
  if c.colony.planet.oilPumps.getD [] = [] then c
  else
    let ticks := timeDelta / cfg.residentUpdateInterval
    let r := c.res
    let newOil := c.pumps.foldl (fun acc p => acc + p.production * ticks) r.oilStorage
    markChanged (c.setRes { r with oilStorage := newOil })

/-- Colony.produce_steel_from_factories (colony.py lines 461-473). -/
def produceSteelFromFactories (cfg : Config) (c : ColonyW) (timeDelta : ℚ) : ColonyW :=
  if c.colony.planet.steelFactories.getD [] = [] then c
  else
    let ticks := timeDelta / cfg.residentUpdateInterval
    let r := c.res
    let newSteel := c.factories.foldl (fun acc f => acc + f.production * ticks) r.steelStorage
    markChanged (c.setRes { r with steelStorage := newSteel })

/-- Colony.calculate_temperature_factor (colony.py lines 556-571). -/
def calculateTemperatureFactor (cfg : Config) (c : ColonyW) : ℚ :=
  let tempDiff := |c.res.temperature - cfg.idealTemperature|
  if cfg.temperatureTolerance ≤ tempDiff then 1/10
  else 1 - (tempDiff / cfg.temperatureTolerance) * (9/10)

/-- Colony.calculate_water_factor (colony.py lines 573-598). -/
def calculateWaterFactor (c : ColonyW) : ℚ :=
  let waterGeneration := c.res.water
  if waterGeneration ≤ 0 then 1/10
  else if 2 ≤ waterGeneration then 5/2
  else min (1/10 + (waterGeneration / 2) * (5/2 - 1/10)) (5/2)

/-- Colony.calculate_building_capacity (colony.py lines 600-611).  The
source truncates the rational minimum with int(). -/
def calculateBuildingCapacity (cfg : Config) (c : ColonyW) : ℤ :=
  pytrunc (min (c.res.steelStorage * cfg.buildingCapacityPerSteel)
               (c.res.oilStorage * cfg.buildingCapacityPerOil))

/-- Colony.increase_residents (colony.py lines 619-644). -/
def increaseResidents (cfg : Config) (c : ColonyW) (now : ℚ) : ColonyW :=
  let tempFactor := calculateTemperatureFactor cfg c
  let waterFactor := calculateWaterFactor c
  let growth : ℚ := cfg.baseGrowthRate * tempFactor * waterFactor
  let maxCapacity := calculateBuildingCapacity cfg c
  let growth := if maxCapacity ≤ c.colony.residents ∧ 0 < maxCapacity then 0 else growth
  let c :=
    if 0 < growth then
      let growth :=
        if 0 < maxCapacity ∧ (maxCapacity : ℚ) * (9/10) < (c.colony.residents : ℚ) then
          growth * max 0 (((maxCapacity : ℚ) - (c.colony.residents : ℚ)) / ((maxCapacity : ℚ) * (1/10)))
        else growth
      changeResidents c (pytrunc growth)
    else c
  { c with lastResidentsUpdate := now }

/-- Colony.get_next_colony_level (colony.py lines 646-655). -/
def getNextColonyLevel : ColonyLevel → Option ColonyLevel
  | .Colony => some .Settlement
  | .Settlement => some .Township
  | .Township => some .Metropolis
  | .Metropolis => some .StarportHub
  | .StarportHub => none

/-- Colony.can_upgrade_to_level (colony.py lines 657-675). -/
def canUpgradeToLevel (cfg : Config) (c : ColonyW) (target : ColonyLevel) : Bool :=
  match cfg.levelThresholds target with
  | none => false
  | some th =>
    if c.colony.residents < th.residents then false
    else if c.res.waterStorage < th.waterStorage then false
    else if c.res.steelStorage < th.steelStorage then false
    else if c.res.oilStorage < th.oilStorage then false
    else true

/-- Colony.check_and_upgrade_level (colony.py lines 677-713). -/
def checkAndUpgradeLevel (cfg : Config) (c : ColonyW) (now : ℚ) : ColonyW :=
  match getNextColonyLevel c.colony.colonyLevel with
  | none => c
  | some nextLevel =>
    if canUpgradeToLevel cfg c nextLevel then
      let c := markChanged { c with colony := { c.colony with colonyLevel := nextLevel } }
      let newMaxHp := match cfg.defenseStats nextLevel with
        | some d => d.baseHp
        | none => c.colony.max_hp
      let c := { c with colony := { c.colony with max_hp := newMaxHp, hp := newMaxHp } }
      let c := addActionEvent c ("upgraded to " ++ levelValue nextLevel) "level-up" now
      match cfg.levelThresholds nextLevel with
      | none => c
      | some th =>
        let r := c.res
        c.setRes { r with
          waterStorage := max 0 (r.waterStorage - th.waterStorage * (1/2))
          steelStorage := max 0 (r.steelStorage - th.steelStorage * (1/2))
          oilStorage := max 0 (r.oilStorage - th.oilStorage * (1/2)) }
    else c

/-! ## Structure construction (build_oil_pump / build_steel_factory) -/

/-- Colony._is_position_valid (colony.py lines 147-166).  Distance
comparisons are on squared quantities (minDist is nonnegative in every
configuration of interest; the comparison sqrt d < m is m^2-squared). -/
def isPositionValid (c : ColonyW) (position : Vector2) (minDist : ℚ) : Bool :=
  if distSq2 position c.colony.planet.planetMainBase < minDist^2 then false
  else if (c.pumps.any (fun p => distSq2 position p.position < minDist^2)) then false
  else if (c.factories.any (fun f => distSq2 position f.position < minDist^2)) then false
  else true

/-- Colony._get_random_valid_position (colony.py lines 168-178): 20 random
draws are attempted and the first valid one is returned.  The random samples
are passed in as the list draws (of which at most 20 are consulted). -/
def getRandomValidPosition (cfg : Config) (c : ColonyW) (draws : List Vector2) :
    Option Vector2 :=
  (draws.take 20).find? (fun p => isPositionValid c p cfg.minBuildingDistance)

/-- Colony.can_build_oil_pump (colony.py lines 310-332).  The source also
normalises a missing pump list to [] as a side effect; that normalisation is
performed by build_oil_pump below and is unobservable through any claim. -/
def canBuildOilPump (cfg : Config) (c : ColonyW) : Bool :=
  if levelIndex c.colony.colonyLevel < 1 then false
  else if cfg.oilPumpMaxPerPlanet ≤ (c.pumps.length : ℤ) then false
  else if c.res.steelStorage < cfg.oilPumpSteelCost then false
  else true

/-- Colony.build_oil_pump (colony.py lines 334-375). -/
def buildOilPump (cfg : Config) (c : ColonyW) (draws : List Vector2) (now : ℚ) :
    ColonyW × Option OilPump :=
  if canBuildOilPump cfg c = false then (c, none)
  else
    let c := { c with lastStructureBuildTime := now }
    let c := c.setRes { c.res with steelStorage := c.res.steelStorage - cfg.oilPumpSteelCost }
    let c := c.setPumps c.pumps
    match getRandomValidPosition cfg c draws with
    | none =>
      (c.setRes { c.res with steelStorage := c.res.steelStorage + cfg.oilPumpSteelCost }, none)
    | some position =>
      let pump : OilPump := ⟨toString c.nextPumpId, position, c.res.oil⟩
      let c := { c with nextPumpId := c.nextPumpId + 1 }
      let c := c.setPumps (c.pumps ++ [pump])
      let c := markChanged c
      let c := addActionEvent c "built an Oil Pump" "build" now
      (c, some pump)

/-- Colony.can_build_steel_factory (colony.py lines 391-417).  The TypeError
branch of the source is unreachable for well-typed states. -/
def canBuildSteelFactory (cfg : Config) (c : ColonyW) : Bool :=
  if levelIndex c.colony.colonyLevel < 1 then false
  else if cfg.steelFactoryMaxPerPlanet ≤ (c.factories.length : ℤ) then false
  else if c.res.oilStorage < cfg.steelFactoryOilCost then false
  else true

/-- Colony.build_steel_factory (colony.py lines 419-459). -/
def buildSteelFactory (cfg : Config) (c : ColonyW) (draws : List Vector2) (now : ℚ) :
    ColonyW × Option SteelFactory :=
  if canBuildSteelFactory cfg c = false then (c, none)
  else
    let c := { c with lastStructureBuildTime := now }
    let c := c.setRes { c.res with oilStorage := c.res.oilStorage - cfg.steelFactoryOilCost }
    let c := c.setFactories c.factories
    match getRandomValidPosition cfg c draws with
    | none =>
      (c.setRes { c.res with oilStorage := c.res.oilStorage + cfg.steelFactoryOilCost }, none)
    | some position =>
      let factory : SteelFactory := ⟨toString c.nextFactoryId, position, c.res.steel⟩
      let c := { c with nextFactoryId := c.nextFactoryId + 1 }
      let c := c.setFactories (c.factories ++ [factory])
      let c := markChanged c
      let c := addActionEvent c "built a Steel Factory" "build" now
      (c, some factory)

/-! ## Fleet construction -/

/-- Colony.get_unlocked_fleet_types (colony.py lines 1587-1591). -/
def getUnlockedFleetTypes (cfg : Config) (c : ColonyW) : List String :=
  match cfg.levelThresholds c.colony.colonyLevel with
  | some th => th.unlockedFleetTypes
  | none => []

/-- Colony.can_build_fleet_type (colony.py lines 1593-1595). -/
def canBuildFleetType (cfg : Config) (c : ColonyW) (fleetType : String) : Bool :=
  (getUnlockedFleetTypes cfg c).contains fleetType

/-- The max-fleet-groups check shared by the four can_build_x_group methods
(for example colony.py lines 1197-1203).  Python truthiness: a missing or
empty fleet list skips the check. -/
def maxFleetGroupsReached (cfg : Config) (c : ColonyW) : Bool :=
  match cfg.levelThresholds c.colony.colonyLevel with
  | none => false
  | some th =>
    match c.colony.colonyFleet with
    | none => false
    | some fl =>
      if fl = [] then false
      else
        let total := (fl.filter (fun f =>
          f.type = "Flanker" ∨ f.type = "Fighter" ∨ f.type = "Bomber" ∨ f.type = "Scout")).length
        th.maxFleetGroups ≤ (total : ℤ)

/-- Colony.can_build_flanker_group (colony.py lines 1181-1212). -/
def canBuildFlankerGroup (cfg : Config) (c : ColonyW) (now : ℚ) : Bool :=
  if canBuildFleetType cfg c "Flanker" = false then false
  else if now - c.lastFlankerBuildTime < cfg.flankerBuildCooldown then false
  else if c.pumps = [] then false
  else if maxFleetGroupsReached cfg c then false
  else if c.res.steelStorage < cfg.flankerSteelCost then false
  else if c.res.oilStorage < cfg.flankerOilCost then false
  else true

/-- Colony.can_build_fighter_group (colony.py lines 1310-1333). -/
def canBuildFighterGroup (cfg : Config) (c : ColonyW) (now : ℚ) : Bool :=
  if canBuildFleetType cfg c "Fighter" = false then false
  else if now - c.lastFighterBuildTime < cfg.fighterBuildCooldown then false
  else if c.pumps = [] then false
  else if maxFleetGroupsReached cfg c then false
  else if c.res.steelStorage < cfg.fighterSteelCost then false
  else if c.res.oilStorage < cfg.fighterOilCost then false
  else true

/-- Colony.can_build_bomber_group (colony.py lines 1403-1425). -/
def canBuildBomberGroup (cfg : Config) (c : ColonyW) (now : ℚ) : Bool :=
  if canBuildFleetType cfg c "Bomber" = false then false
  else if now - c.lastBomberBuildTime < cfg.bomberBuildCooldown then false
  else if c.pumps = [] then false
  else if maxFleetGroupsReached cfg c then false
  else if c.res.steelStorage < cfg.bomberSteelCost then false
  else if c.res.oilStorage < cfg.bomberOilCost then false
  else true

/-- Colony.can_build_scout_group (colony.py lines 1495-1517). -/
def canBuildScoutGroup (cfg : Config) (c : ColonyW) (now : ℚ) : Bool :=
  if canBuildFleetType cfg c "Scout" = false then false
  else if now - c.lastScoutBuildTime < cfg.scoutBuildCooldown then false
  else if c.pumps = [] then false
  else if maxFleetGroupsReached cfg c then false
  else if c.res.steelStorage < cfg.scoutSteelCost then false
  else if c.res.oilStorage < cfg.scoutOilCost then false
  else true

/-- Shared body of the four build_x_group methods (for example
colony.py lines 1214-1308 for flankers).  spawnPos is the spawn position the
source derives from the trigonometric base position plus normal offset; gid
is the random group id; joinApplies says whether the all-colonies cache
contains the colony named by attack_target_colony_id, and join is the effect
of _add_fleet_to_attack on the freshly built fleet (it touches only that
fleet).  The _fleet_patrol_cooldowns entry set to 0 is not modelled. -/
def buildFleetGroup (c : ColonyW) (ty namePlural : String)
    (groupSize : ℤ) (steelCost oilCost : ℚ) (stats : Option FleetStats)
    (dSpeed dMaxHP dDamage : ℚ) (idPrefixStr : String)
    (now : ℚ) (spawnPos : Vector3) (gid : String) (tac : String)
    (joinApplies : Bool) (join : Fleet → Fleet)
    (setBuildTime : ColonyW → ℚ → ColonyW) : ColonyW × Option Fleet :=
  let c := c.setRes { c.res with
    steelStorage := c.res.steelStorage - steelCost
    oilStorage := c.res.oilStorage - oilCost }
  let fleetSpeed := match stats with | some s => s.speed | none => dSpeed
  let fleetMaxHP := match stats with | some s => s.maxHP | none => dMaxHP
  let fleetDamage := match stats with | some s => s.damage | none => dDamage
  let fl : Fleet :=
    { id := idPrefixStr ++ gid
      type := ty
      label := some (c.colony.name ++ " " ++ namePlural)
      count := groupSize
      position := spawnPos
      velocity := ⟨0, 0, 0⟩
      state := "Idle"
      tactic := tac
      hpPool := some (fleetMaxHP * (groupSize : ℚ))
      maxHP := some fleetMaxHP
      damage := some fleetDamage
      speed := some fleetSpeed
      waypoints := none
      target := none
      isAttacking := false
      combatWarmup := 0
      homePosition := some spawnPos }
  let fl := if ((match c.attackTargetColonyId with
                 | some s => decide (s ≠ "")
                 | none => false) && joinApplies) = true then join fl else fl
  let c := { c with colony :=
    { c.colony with colonyFleet := some (c.colony.colonyFleet.getD [] ++ [fl]) } }
  let c := setBuildTime c now
  let c := markChanged c
  (c, some fl)

/-- Colony.build_flanker_group (colony.py lines 1214-1308). -/
def buildFlankerGroup (cfg : Config) (c : ColonyW) (now : ℚ) (spawnPos : Vector3)
    (gid : String) (joinApplies : Bool) (join : Fleet → Fleet) : ColonyW × Option Fleet :=
  if canBuildFlankerGroup cfg c now = false then (c, none)
  else
    let r := buildFleetGroup c "Flanker" "Flankers" cfg.flankerGroupSize
      cfg.flankerSteelCost cfg.flankerOilCost (cfg.fleetStats "Flanker") 5 100 15
      "flanker_" now spawnPos gid "Offensive" joinApplies join
      (fun c t => { c with lastFlankerBuildTime := t })
    (addActionEvent r.1 ("built a Flanker group (" ++ toString cfg.flankerGroupSize ++ " ships)")
      "build" now, r.2)

/-- Colony.build_fighter_group (colony.py lines 1335-1401). -/
def buildFighterGroup (cfg : Config) (c : ColonyW) (now : ℚ) (spawnPos : Vector3)
    (gid : String) (joinApplies : Bool) (join : Fleet → Fleet) : ColonyW × Option Fleet :=
  if canBuildFighterGroup cfg c now = false then (c, none)
  else
    let r := buildFleetGroup c "Fighter" "Fighters" cfg.fighterGroupSize
      cfg.fighterSteelCost cfg.fighterOilCost (cfg.fleetStats "Fighter") 6 80 10
      "fighter_" now spawnPos gid "Offensive" joinApplies join
      (fun c t => { c with lastFighterBuildTime := t })
    (addActionEvent r.1 ("built a Fighter group (" ++ toString cfg.fighterGroupSize ++ " ships)")
      "build" now, r.2)

/-- Colony.build_bomber_group (colony.py lines 1427-1493). -/
def buildBomberGroup (cfg : Config) (c : ColonyW) (now : ℚ) (spawnPos : Vector3)
    (gid : String) (joinApplies : Bool) (join : Fleet → Fleet) : ColonyW × Option Fleet :=
  if canBuildBomberGroup cfg c now = false then (c, none)
  else
    let r := buildFleetGroup c "Bomber" "Bombers" cfg.bomberGroupSize
      cfg.bomberSteelCost cfg.bomberOilCost (cfg.fleetStats "Bomber") 4 150 30
      "bomber_" now spawnPos gid "Offensive" joinApplies join
      (fun c t => { c with lastBomberBuildTime := t })
    (addActionEvent r.1 ("built a Bomber group (" ++ toString cfg.bomberGroupSize ++ " ships)")
      "build" now, r.2)

/-- Colony.build_scout_group (colony.py lines 1519-1585). -/
def buildScoutGroup (cfg : Config) (c : ColonyW) (now : ℚ) (spawnPos : Vector3)
    (gid : String) (joinApplies : Bool) (join : Fleet → Fleet) : ColonyW × Option Fleet :=
  if canBuildScoutGroup cfg c now = false then (c, none)
  else
    let r := buildFleetGroup c "Scout" "Scouts" cfg.scoutGroupSize
      cfg.scoutSteelCost cfg.scoutOilCost (cfg.fleetStats "Scout") 8 50 5
      "scout_" now spawnPos gid "Defensive" joinApplies join
      (fun c t => { c with lastScoutBuildTime := t })
    (addActionEvent r.1 ("built a Scout group (" ++ toString cfg.scoutGroupSize ++ " ships)")
      "build" now, r.2)

/-! ## Change diffing (get_changes) -/

/-- Colony.get_changes (colony.py lines 1597-1616). -/
def getChanges (c : ColonyW) : ColonyW × Option (List (String × DVal)) :=
  if c.hasChanges = false then (c, none)
  else
    let currentState := colonyDict c.colony
    let changes := currentState.filter (fun kv =>
      match dictGet c.prevState kv.1 with
      | none => true
      | some v => v ≠ kv.2)
    let changes := dictSet changes "id" (DVal.vstr c.colony.id)
    ({ c with prevState := currentState, hasChanges := false }, some changes)

/-! ## Fleet movement: waypoint consumption -/

/-- Python truthiness of the idiom (fleet.target and fleet.target.id): a
target is bound when present with a non-None, non-empty id string. -/
def targetBound : Option FleetTarget → Bool
  | some t =>
    match t.id with
    | some s => decide (s ≠ "")
    | none => false
  | none => false

/-- Tail of Colony._update_fleet_movement (colony.py lines 974-1001): the
velocity recomputation toward the current waypoint.  steer is the unit
direction the source obtains from _get_collision_free_direction (or plain
normalisation when no colony list is given); its square-root normalisation
is kept abstract. -/
def velocityTowardTail (fleet : Fleet) (targetWaypoint : Vector3) (steer : Vector3) : Fleet :=
  if 0 < distSq3 targetWaypoint fleet.position then
    -- Python truthiness: a missing speed and a 0.0 speed both fall back to 5.0
    let speed := match fleet.speed with
      | some s => if s = 0 then 5 else s
      | none => 5
    let newVelocity : Vector3 := ⟨steer.x * speed, steer.y * speed, steer.z * speed⟩
    if (1/100 : ℚ) < |newVelocity.x - fleet.velocity.x| ∨
       (1/100 : ℚ) < |newVelocity.y - fleet.velocity.y| ∨
       (1/100 : ℚ) < |newVelocity.z - fleet.velocity.z| then
      { fleet with velocity := newVelocity }
    else fleet
  else fleet

/-- Colony._update_fleet_movement from the waypoint check onward
(colony.py lines 919-1001), applied after the position of the fleet has
been integrated and orbit-constrained.  The arrival test of the source is
distance <= 1.0, expressed here on the squared distance.  The colony-level
dirty flag set on arrival is not part of the fleet and is not modelled
here. -/
def fleetWaypointPhase (fleet : Fleet) (steer : Vector3) : Fleet :=
  match fleet.waypoints with
  | none =>
    if fleet.velocity ≠ ⟨0, 0, 0⟩ then { fleet with velocity := ⟨0, 0, 0⟩ } else fleet
  | some [] =>
    if fleet.velocity ≠ ⟨0, 0, 0⟩ then { fleet with velocity := ⟨0, 0, 0⟩ } else fleet
  | some (w :: ws) =>
    if distSq3 w fleet.position ≤ 1 then
      let wps := if fleet.state = "Patrolling" then ws ++ [w] else ws
      let fleet1 := { fleet with waypoints := some wps }
      if fleet1.state = "Moving" ∧ targetBound fleet1.target = true ∧ wps = [] then
        { fleet1 with velocity := ⟨0, 0, 0⟩, state := "Attacking",
                      isAttacking := true, combatWarmup := 2 }
      else if wps = [] then
        let fleet2 := { fleet1 with velocity := ⟨0, 0, 0⟩ }
        if fleet2.state = "Moving" then { fleet2 with state := "Idle" } else fleet2
      else
        match wps with
        | [] => fleet1
        | w2 :: _ => velocityTowardTail fleet1 w2 steer
    else
      velocityTowardTail fleet w steer

/-! ## Combat resolution and conquest -/

/-- Colony.remove_fleet (colony.py lines 186-205). -/
def removeFleet (c : ColonyW) (fleetId : String) : ColonyW :=
  match c.colony.colonyFleet with
  | none => c
  | some fl =>
    if fl = [] then c
    else
      let newFl := fl.filter (fun f => f.id ≠ fleetId)
      let c := { c with colony := { c.colony with colonyFleet := some newFl } }
      if newFl.length < fl.length then markChanged c else c

/-- In-place mutation of the fleet object with the given id inside a fleet
list (the source mutates the found object; ids are unique). -/
def updateFleetById (l : List Fleet) (fleetId : String) (g : Fleet → Fleet) : List Fleet :=
  l.map (fun f => if f.id = fleetId then g f else f)

/-- Colony._take_over_colony (colony.py lines 2524-2535).  Returns the
updated (conqueror, victim) pair; now is the event timestamp. -/
def takeOverColony (self victim : ColonyW) (now : ℚ) : ColonyW × ColonyW :=
  let victimName := victim.colony.name
  let victim := { victim with colony :=
    { victim.colony with
        owner_id := self.colony.owner_id
        hp := victim.colony.max_hp
        color := self.colony.color
        name := self.colony.name
        colonyFleet := some [] } }
  let victim := markChanged victim
  let victim := addActionEvent victim ("Conquered by " ++ self.colony.name ++ "!") "defeat" now
  let self := addActionEvent self ("Conquered " ++ victimName ++ "!") "victory" now
  (self, victim)

/-- Colony._resolve_fleet_combat (colony.py lines 2406-2522) in the case
where the target lookup over all colonies resolved to the base of the enemy
colony victim (target_type == "Base").  targetBasePos is the value of
victim._get_planet_base_position() and aimPos of
victim._get_base_target_position(); both are trigonometric and passed in.
los is the result of _has_line_of_sight.  The range check dist > 30.0 is
expressed on squared distances.  Returns (self, fleet, victim). -/
def resolveFleetCombatBase (self victim : ColonyW) (fleet : Fleet) (deltaTime : ℚ)
    (targetBasePos aimPos : Vector3) (los : Bool) (now : ℚ) :
    ColonyW × Fleet × ColonyW :=
  if targetBound fleet.target = false then (self, fleet, victim)
  else
    let fleet := { fleet with target := fleet.target.map (fun t => { t with position := some aimPos }) }
    if (30:ℚ)^2 < distSq3 fleet.position targetBasePos then
      (markChanged self, { fleet with isAttacking := false, state := "Idle" }, victim)
    else if los = false then (self, fleet, victim)
    else if 0 < fleet.combatWarmup then
      (self, { fleet with combatWarmup := fleet.combatWarmup - deltaTime }, victim)
    else
      let dps := fleet.damage.getD 10
      let damage := dps * deltaTime
      let newHp := victim.colony.hp - damage
      let victim := { victim with colony := { victim.colony with hp := newHp } }
      if newHp ≤ 0 then
        let p := takeOverColony self victim now
        (markChanged p.1,
         { fleet with isAttacking := false, target := none, state := "Idle" },
         p.2)
      else (self, fleet, victim)

/-- The forcing of an un-engaged fleet target into Attacking on first
contact (colony.py lines 2469-2480): halt, clear waypoints, arm a warmup,
and aim back at the attacker when no target was bound. -/
def forceEngage (attacker fo : Fleet) : Fleet :=
  if fo.state ≠ "Attacking" then
    let fo := { fo with state := "Attacking", isAttacking := true,
                        velocity := ⟨0, 0, 0⟩, waypoints := some [], combatWarmup := 2 }
    if targetBound fo.target = false then
      { fo with target := some ⟨some attacker.id, some attacker.position⟩ }
    else fo
  else fo

/-- Colony._resolve_fleet_combat (colony.py lines 2406-2522) in the case
where the target lookup resolved to an enemy fleet with id targetId owned by
victim (target_type == "Fleet").  Geometry as in resolveFleetCombatBase.
Returns (self, fleet, victim). -/
def resolveFleetCombatFleet (self victim : ColonyW) (fleet : Fleet) (targetId : String)
    (deltaTime : ℚ) (los : Bool) (now : ℚ) : ColonyW × Fleet × ColonyW :=
  if targetBound fleet.target = false then (self, fleet, victim)
  else
    match (victim.colony.colonyFleet.getD []).find? (fun f => f.id = targetId) with
    | none =>
      -- target vanished: lookup failed (colony.py lines 2434-2439)
      (markChanged self,
       { fleet with isAttacking := false, target := none, state := "Idle" },
       victim)
    | some tf =>
      let targetPos := tf.position
      let fleet := { fleet with target := fleet.target.map (fun t => { t with position := some targetPos }) }
      if (30:ℚ)^2 < distSq3 fleet.position targetPos then
        (markChanged self, { fleet with isAttacking := false, state := "Idle" }, victim)
      else if los = false then (self, fleet, victim)
      else
        let victim :=
          if tf.state ≠ "Attacking" then
            markChanged { victim with colony :=
              { victim.colony with colonyFleet :=
                  (some (updateFleetById (victim.colony.colonyFleet.getD []) targetId
                    (forceEngage fleet))) } }
          else victim
        if 0 < fleet.combatWarmup then
          (self, { fleet with combatWarmup := fleet.combatWarmup - deltaTime }, victim)
        else
          let dps := fleet.damage.getD 10
          let damage := dps * deltaTime
          let currentHp := (forceEngage fleet tf).hpPool.getD 100
          let newHp := currentHp - damage
          if newHp ≤ 0 then
            let victim := { victim with colony :=
              { victim.colony with colonyFleet :=
                  (some (updateFleetById (victim.colony.colonyFleet.getD []) targetId
                    (fun fo => { fo with hpPool := some newHp }))) } }
            let victim := removeFleet victim targetId
            let victim := addActionEvent victim "Fleet destroyed!" "combat" now
            (markChanged self,
             { fleet with isAttacking := false, target := none, state := "Idle" },
             victim)
          else
            let victim := { victim with colony :=
              { victim.colony with colonyFleet :=
                  (some (updateFleetById (victim.colony.colonyFleet.getD []) targetId
                    (fun fo => { fo with hpPool := some newHp }))) } }
            (self, fleet, victim)

/-! ## Pathfinding: recursive detour generation -/

/-- The intersection decision of Colony._get_detour_point (colony.py lines
1933-1989): whether the start-end segment passes strictly within the sphere
at center with the given radius.  The projection parameter t and its clamp
are rational; the returned Boolean is exactly the some/none decision of the
source. -/
def getDetourCond (start e center : Vector3) (radius : ℚ) : Bool :=
  let abx := e.x - start.x
  let aby := e.y - start.y
  let abz := e.z - start.z
  let abLenSq := abx^2 + aby^2 + abz^2
  if abLenSq = 0 then false
  else
    let acx := center.x - start.x
    let acy := center.y - start.y
    let acz := center.z - start.z
    let t := (acx * abx + acy * aby + acz * abz) / abLenSq
    let closestT := max 0 (min 1 t)
    let px := start.x + closestT * abx
    let py := start.y + closestT * aby
    let pz := start.z + closestT * abz
    let dSq := (px - center.x)^2 + (py - center.y)^2 + (pz - center.z)^2
    decide (dSq < radius * radius)

/-- Colony._get_detour_point (colony.py lines 1933-1989).  The coordinates
of the detour point involve a square-root normalisation and are supplied by
the abstract function dp; the some/none decision is getDetourCond.  The
claims proved below hold for every dp, in particular for the exact point
the source computes. -/
def getDetourPoint (dp : Vector3 → Vector3 → Vector3 → ℚ → Vector3)
    (start e center : Vector3) (radius : ℚ) : Option Vector3 :=
  if getDetourCond start e center radius then some (dp start e center radius) else none

/-- The enlarged safety radius used by the path planner
(colony.py line 2006): scale * planet_model_radius * 1.1 + 3.0. -/
def planetSafeRadius (cfg : Config) (c : ColonyW) : ℚ :=
  c.colony.planet.scale * cfg.planetModelRadius * (11/10) + 3

/-- One iteration of the obstacle-selection loop of
Colony._generate_path_waypoints (colony.py lines 2002-2015): the
accumulator keeps the squared start distance and detour of the best (start
closest) obstructing planet seen so far, none standing for the float('inf')
initialisation. -/
def pickStep (dp : Vector3 → Vector3 → Vector3 → ℚ → Vector3) (cfg : Config)
    (start e : Vector3) (acc : Option (ℚ × Vector3)) (col : ColonyW) :
    Option (ℚ × Vector3) :=
  let pPos := col.colony.planet.position
  match getDetourPoint dp start e pPos (planetSafeRadius cfg col) with
  | none => acc
  | some det =>
    let dSq := (pPos.x - start.x)^2 + (pPos.y - start.y)^2 + (pPos.z - start.z)^2
    match acc with
    | none => some (dSq, det)
    | some best => if dSq < best.1 then some (dSq, det) else acc

/-- The obstacle-selection loop of Colony._generate_path_waypoints
(colony.py lines 1999-2015): among the planets whose sphere the segment
crosses, keep the detour of the one closest to the start. -/
def pickBestDetour (dp : Vector3 → Vector3 → Vector3 → ℚ → Vector3) (cfg : Config)
    (start e : Vector3) (cols : List ColonyW) : Option Vector3 :=
  (cols.foldl (pickStep dp cfg start e) none).map (fun best => best.2)

/-- Fuel-indexed body of Colony._generate_path_waypoints: fuel stands for
3 - depth, so that fuel 0 is exactly the depth > 2 recursion cutoff of the
source and each recursive call at depth + 1 spends one unit of fuel. -/
def generatePathWaypointsF (dp : Vector3 → Vector3 → Vector3 → ℚ → Vector3) (cfg : Config)
    (cols : List ColonyW) : ℕ → Vector3 → Vector3 → List Vector3
  | 0, _, e => [e]
  | fuel + 1, start, e =>
    if cols = [] then [e]
    else
      match pickBestDetour dp cfg start e cols with
      | none => [e]
      | some det =>
        generatePathWaypointsF dp cfg cols fuel start det ++
        generatePathWaypointsF dp cfg cols fuel det e

/-- Colony._generate_path_waypoints (colony.py lines 1991-2024), with the
depth parameter of the source mapped to the fuel 3 - depth. -/
def generatePathWaypoints (dp : Vector3 → Vector3 → Vector3 → ℚ → Vector3) (cfg : Config)
    (cols : List ColonyW) (start e : Vector3) (depth : ℕ) : List Vector3 :=
  generatePathWaypointsF dp cfg cols (3 - depth) start e

/-! ## Operation sequences for the global non-negativity invariant (C1)

Each constructor is one of the operations of colony.update that touches
residents or resource storages (accumulation, structure and fleet
construction cost deduction, level-upgrade consumption, resident change),
carrying the wall-clock/randomness inputs that operation consumes. -/

inductive Op where
  | changeResidentsOp (delta : ℤ)
  | accumulateOp (dt : ℚ)
  | produceOilOp (dt : ℚ)
  | produceSteelOp (dt : ℚ)
  | buildOilPumpOp (draws : List Vector2) (now : ℚ)
  | buildSteelFactoryOp (draws : List Vector2) (now : ℚ)
  | buildFlankerOp (now : ℚ) (spawn : Vector3) (gid : String) (joinApplies : Bool)
      (join : Fleet → Fleet)
  | buildFighterOp (now : ℚ) (spawn : Vector3) (gid : String) (joinApplies : Bool)
      (join : Fleet → Fleet)
  | buildBomberOp (now : ℚ) (spawn : Vector3) (gid : String) (joinApplies : Bool)
      (join : Fleet → Fleet)
  | buildScoutOp (now : ℚ) (spawn : Vector3) (gid : String) (joinApplies : Bool)
      (join : Fleet → Fleet)
  | upgradeLevelOp (now : ℚ)
  | increaseResidentsOp (now : ℚ)

def applyOp (cfg : Config) (c : ColonyW) : Op → ColonyW
  | .changeResidentsOp delta => changeResidents c delta
  | .accumulateOp dt => accumulateResources cfg c dt
  | .produceOilOp dt => produceOilFromPumps cfg c dt
  | .produceSteelOp dt => produceSteelFromFactories cfg c dt
  | .buildOilPumpOp draws now => (buildOilPump cfg c draws now).1
  | .buildSteelFactoryOp draws now => (buildSteelFactory cfg c draws now).1
  | .buildFlankerOp now spawn gid ja j => (buildFlankerGroup cfg c now spawn gid ja j).1
  | .buildFighterOp now spawn gid ja j => (buildFighterGroup cfg c now spawn gid ja j).1
  | .buildBomberOp now spawn gid ja j => (buildBomberGroup cfg c now spawn gid ja j).1
  | .buildScoutOp now spawn gid ja j => (buildScoutGroup cfg c now spawn gid ja j).1
  | .upgradeLevelOp now => checkAndUpgradeLevel cfg c now
  | .increaseResidentsOp now => increaseResidents cfg c now

def applyOps (cfg : Config) (c : ColonyW) (ops : List Op) : ColonyW :=
  ops.foldl (applyOp cfg) c

/-- Validity of the operation inputs: elapsed times are nonnegative (the
tick loop always passes nonnegative elapsed times). -/
def opValid : Op → Bool
  | .accumulateOp dt => decide (0 ≤ dt)
  | .produceOilOp dt => decide (0 ≤ dt)
  | .produceSteelOp dt => decide (0 ≤ dt)
  | _ => true

/-- A valid colony state in the sense of C1: nonnegative residents,
storages, natural generation rates, and structure production rates
(productions are copies of generation rates at construction time). -/
def ValidState (c : ColonyW) : Prop :=
  0 ≤ c.colony.residents ∧
  0 ≤ c.res.oilStorage ∧ 0 ≤ c.res.steelStorage ∧ 0 ≤ c.res.waterStorage ∧
  0 ≤ c.res.oil ∧ 0 ≤ c.res.steel ∧ 0 ≤ c.res.water ∧
  (∀ p ∈ c.pumps, 0 ≤ p.production) ∧ (∀ f ∈ c.factories, 0 ≤ f.production)

instance (c : ColonyW) : Decidable (ValidState c) := by
  unfold ValidState; infer_instance

/-! ## Sample data (fallback configuration defaults of colony.py lines
20-88, used by witnesses) -/

def sampleCfg : Config :=
  { residentUpdateInterval := 3
    planetModelRadius := 1
    idealTemperature := 15
    temperatureTolerance := 10
    baseGrowthRate := 20
    buildingCapacityPerSteel := 50
    buildingCapacityPerOil := 30
    oilPumpSteelCost := 500
    oilPumpMaxPerPlanet := 3
    steelFactoryOilCost := 200
    steelFactoryMaxPerPlanet := 3
    minBuildingDistance := 12
    flankerGroupSize := 3
    flankerSteelCost := 300
    flankerOilCost := 150
    flankerBuildCooldown := 30
    fighterGroupSize := 5
    fighterSteelCost := 200
    fighterOilCost := 100
    fighterBuildCooldown := 25
    bomberGroupSize := 2
    bomberSteelCost := 400
    bomberOilCost := 200
    bomberBuildCooldown := 40
    scoutGroupSize := 1
    scoutSteelCost := 100
    scoutOilCost := 50
    scoutBuildCooldown := 15
    levelThresholds := fun l =>
      match l with
      | .Settlement => some ⟨100, 100, 100, 100, 3, ["Flanker", "Scout"]⟩
      | _ => none
    defenseStats := fun l =>
      match l with
      | .Settlement => some ⟨1500, 10⟩
      | _ => none
    fleetStats := fun _ => none }

def sampleResources : NaturalResources :=
  { oil := 1, steel := 1, water := 2, temperature := 15
    oilStorage := 250, steelStorage := 600, waterStorage := 300 }

def samplePlanet : Planet :=
  { position := ⟨0, 0, 0⟩, scale := 1, rot := ⟨0, 0, 0⟩
    planetModelName := "Planet_A", planetMainBase := ⟨0, 0⟩
    planetNaturalResources := sampleResources
    oilPumps := none, steelFactories := none }

def sampleModel : ColonyModel :=
  { id := "c1", name := "Aurora", residents := 100, color := "#ff0000"
    planet := samplePlanet, colonyLevel := .Settlement, colonyFleet := none
    owner_id := some "c1", hp := 1000, max_hp := 1000, trait := "Defensive"
    is_fighting := false, defense_target_id := none, defense_target_pos := none }

def sampleColony : ColonyW :=
  { colony := sampleModel, lastResidentsUpdate := 0
    prevState := colonyDict sampleModel, hasChanges := false
    nextPumpId := 1, nextFactoryId := 1, actionEvents := []
    lastStructureBuildTime := 0, lastFlankerBuildTime := 0
    lastFighterBuildTime := 0, lastBomberBuildTime := 0, lastScoutBuildTime := 0
    attackTargetColonyId := none }

/-! ## Theorems -/

/-- C10: Conquest (_take_over_colony) additionally overwrites the victim
colony name with the conqueror name, while leaving the victim colony level,
residents, trait, and planet (hence position, scale, rotation, structures
and resource storages) unchanged. -/
theorem c10_takeover_frame (self victim : ColonyW) (now : ℚ) :
    (takeOverColony self victim now).2.colony.name = self.colony.name ∧
    (takeOverColony self victim now).2.colony.colonyLevel = victim.colony.colonyLevel ∧
    (takeOverColony self victim now).2.colony.residents = victim.colony.residents ∧
    (takeOverColony self victim now).2.colony.trait = victim.colony.trait ∧
    (takeOverColony self victim now).2.colony.planet = victim.colony.planet := by
  simp [takeOverColony, markChanged, addActionEvent]

/-- C9: every fleet-group build operation fails, returning None with the
colony state (in particular resource storages, fleet list and event log)
untouched, whenever the planet has no oil pump, regardless of level,
cooldowns and resources. -/
theorem c9_fleet_build_requires_oil_pump (cfg : Config) (c : ColonyW) (now : ℚ)
    (spawn : Vector3) (gid : String) (ja : Bool) (j : Fleet → Fleet)
    (hnopump : c.pumps = []) :
    buildFlankerGroup cfg c now spawn gid ja j = (c, none) ∧
    buildFighterGroup cfg c now spawn gid ja j = (c, none) ∧
    buildBomberGroup cfg c now spawn gid ja j = (c, none) ∧
    buildScoutGroup cfg c now spawn gid ja j = (c, none) := by
  have h1 : canBuildFlankerGroup cfg c now = false := by
    unfold canBuildFlankerGroup
    rw [hnopump]
    split_ifs <;> simp_all
  have h2 : canBuildFighterGroup cfg c now = false := by
    unfold canBuildFighterGroup
    rw [hnopump]
    split_ifs <;> simp_all
  have h3 : canBuildBomberGroup cfg c now = false := by
    unfold canBuildBomberGroup
    rw [hnopump]
    split_ifs <;> simp_all
  have h4 : canBuildScoutGroup cfg c now = false := by
    unfold canBuildScoutGroup
    rw [hnopump]
    split_ifs <;> simp_all
  refine ⟨?_, ?_, ?_, ?_⟩
  · rw [buildFlankerGroup, h1]; rfl
  · rw [buildFighterGroup, h2]; rfl
  · rw [buildBomberGroup, h3]; rfl
  · rw [buildScoutGroup, h4]; rfl

/-- Witness for c9_fleet_build_requires_oil_pump at a concrete pump-less
colony. -/
theorem c9_witness :
    buildFlankerGroup sampleCfg sampleColony 100 ⟨0, 0, 5⟩ "g1" false id
      = (sampleColony, none) :=
  (c9_fleet_build_requires_oil_pump sampleCfg sampleColony 100 ⟨0, 0, 5⟩ "g1" false id
    (by decide)).1

/-- C6 (amended): whenever the building capacity as the source computes it
— the integer truncation of min(steel_storage * k1, oil_storage * k2) — is
positive and residents have reached it, increase_residents leaves the
resident count unchanged. -/
theorem c6_no_growth_at_capacity (cfg : Config) (c : ColonyW) (now : ℚ)
    (hpos : 0 < calculateBuildingCapacity cfg c)
    (hcap : calculateBuildingCapacity cfg c ≤ c.colony.residents) :
    (increaseResidents cfg c now).colony.residents = c.colony.residents := by
  have hcond : calculateBuildingCapacity cfg c ≤ c.colony.residents ∧
      0 < calculateBuildingCapacity cfg c := ⟨hcap, hpos⟩
  simp only [increaseResidents, if_pos hcond]
  norm_num

/-- Colony at the sample configuration capacity min(600*50, 250*30) = 7500,
with exactly that many residents. -/
def c6WitnessColony : ColonyW :=
  { sampleColony with colony := { sampleModel with residents := 7500 } }

/-- Witness for c6_no_growth_at_capacity at c6WitnessColony. -/
theorem c6_witness :
    (increaseResidents sampleCfg c6WitnessColony 9).colony.residents = 7500 := by
  have h := c6_no_growth_at_capacity sampleCfg c6WitnessColony 9
    (by norm_num [calculateBuildingCapacity, pytrunc, ColonyW.res, c6WitnessColony,
      sampleColony, sampleModel, samplePlanet, sampleResources, sampleCfg, min_def])
    (by norm_num [calculateBuildingCapacity, pytrunc, ColonyW.res, c6WitnessColony,
      sampleColony, sampleModel, samplePlanet, sampleResources, sampleCfg, min_def])
  simpa [c6WitnessColony] using h

/-- A colony whose rational building capacity is strictly between 0 and 1:
steel storage 1/100 gives min(1/100 * 50, 250 * 30) = 1/2, which int()
truncates to 0, so the source skips the capacity cutoff entirely. -/
def c6Colony : ColonyW :=
  { sampleColony with colony :=
    { sampleModel with
        residents := 1
        planet := { samplePlanet with planetNaturalResources :=
          { sampleResources with steelStorage := 1/100 } } } }

/-- Counterexample to C6 as stated: at c6Colony the capacity
min(steel_storage * k1, oil_storage * k2) = 1/2 is positive and residents
(= 1) are at least that capacity, yet increase_residents grows the colony
(the source compares residents against the int()-truncated capacity, which
is 0 here, so the cutoff does not fire). -/
theorem c6_counterexample :
    (0 < min (c6Colony.res.steelStorage * sampleCfg.buildingCapacityPerSteel)
             (c6Colony.res.oilStorage * sampleCfg.buildingCapacityPerOil) ∧
     min (c6Colony.res.steelStorage * sampleCfg.buildingCapacityPerSteel)
         (c6Colony.res.oilStorage * sampleCfg.buildingCapacityPerOil)
       ≤ (c6Colony.colony.residents : ℚ)) ∧
    (increaseResidents sampleCfg c6Colony 9).colony.residents ≠ c6Colony.colony.residents := by
  refine ⟨⟨by norm_num [c6Colony, ColonyW.res, sampleColony, sampleModel, samplePlanet,
    sampleResources, sampleCfg, min_def], by norm_num [c6Colony, ColonyW.res, sampleColony,
    sampleModel, samplePlanet, sampleResources, sampleCfg, min_def]⟩, ?_⟩
  norm_num [increaseResidents, calculateTemperatureFactor, calculateWaterFactor,
    calculateBuildingCapacity, pytrunc, changeResidents, markChanged, ColonyW.res,
    c6Colony, sampleColony, sampleModel, samplePlanet, sampleResources, sampleCfg, min_def]

/-- The velocity recomputation changes only the velocity of the fleet. -/
lemma velocityTowardTail_waypoints (f : Fleet) (tw steer : Vector3) :
    (velocityTowardTail f tw steer).waypoints = f.waypoints := by
  simp only [velocityTowardTail]
  split
  · split <;> rfl
  · rfl

/-- C4: when the first waypoint has been reached (distance within the 1.0
arrival threshold, equivalently squared distance within 1), a Patrolling
fleet cycles the waypoint to the back (list length unchanged); a Moving
fleet drops it permanently, and on dropping the last waypoint transitions to
Attacking with warmup 2 and zero velocity when a target is bound, and to
Idle with zero velocity otherwise. -/
theorem c4_waypoint_consumption (fleet : Fleet) (steer w : Vector3) (ws : List Vector3)
    (hw : fleet.waypoints = some (w :: ws))
    (harr : distSq3 w fleet.position ≤ 1) :
    (fleet.state = "Patrolling" →
      (fleetWaypointPhase fleet steer).waypoints = some (ws ++ [w])) ∧
    (fleet.state = "Moving" →
      (fleetWaypointPhase fleet steer).waypoints = some ws ∧
      (targetBound fleet.target = true → ws = [] →
        (fleetWaypointPhase fleet steer).state = "Attacking" ∧
        (fleetWaypointPhase fleet steer).combatWarmup = 2 ∧
        (fleetWaypointPhase fleet steer).isAttacking = true ∧
        (fleetWaypointPhase fleet steer).velocity = ⟨0, 0, 0⟩) ∧
      (targetBound fleet.target = false → ws = [] →
        (fleetWaypointPhase fleet steer).state = "Idle" ∧
        (fleetWaypointPhase fleet steer).velocity = ⟨0, 0, 0⟩)) := by
  constructor
  · intro hstate
    rcases hcase : ws ++ [w] with _ | ⟨w2, rest⟩
    · exact absurd hcase (by simp)
    · simp only [fleetWaypointPhase, hw, hstate, if_pos harr, hcase]
      simp [velocityTowardTail_waypoints]
  · intro hstate
    simp only [fleetWaypointPhase, hw, hstate, if_pos harr]
    refine ⟨?_, ?_, ?_⟩
    · rcases ws with _ | ⟨w2, rest⟩
      · simp [velocityTowardTail_waypoints]
        split <;> simp
      · simp [velocityTowardTail_waypoints]
    · intro hb hws
      subst hws
      simp [hb]
    · intro hb hws
      subst hws
      simp [hb]

/-- Witness for c4_waypoint_consumption: a concrete Moving fleet with a
bound target one unit from its single waypoint transitions to Attacking. -/
theorem c4_witness :
    (fleetWaypointPhase
      { id := "f1", type := "Flanker", label := none, count := 3
        position := ⟨0, 0, 0⟩, velocity := ⟨1, 0, 0⟩, state := "Moving"
        tactic := "Offensive", hpPool := some 300, maxHP := some 100
        damage := some 15, speed := some 5, waypoints := some [⟨1, 0, 0⟩]
        target := some ⟨some "c2", none⟩, isAttacking := false
        combatWarmup := 0, homePosition := none } ⟨0, 0, 0⟩).state = "Attacking" := by
  have h := (c4_waypoint_consumption
    { id := "f1", type := "Flanker", label := none, count := 3
      position := ⟨0, 0, 0⟩, velocity := ⟨1, 0, 0⟩, state := "Moving"
      tactic := "Offensive", hpPool := some 300, maxHP := some 100
      damage := some 15, speed := some 5, waypoints := some [⟨1, 0, 0⟩]
      target := some ⟨some "c2", none⟩, isAttacking := false
      combatWarmup := 0, homePosition := none } ⟨0, 0, 0⟩ ⟨1, 0, 0⟩ []
    rfl (by norm_num [distSq3])).2 rfl
  exact (h.2.1 (by decide) rfl).1

/-- C2: whenever the Base-target branch of _resolve_fleet_combat drives the
victim hp to <= 0, then before the call returns the victim owner id equals
the attacker owner id, the victim fleet list is empty, the victim hp is
reset to its max, and the attacking fleet is Idle with target cleared. -/
theorem c2_base_kill_conquest (self victim : ColonyW) (fleet : Fleet) (dt : ℚ)
    (basePos aimPos : Vector3) (now : ℚ)
    (hbound : targetBound fleet.target = true)
    (hrange : distSq3 fleet.position basePos ≤ 30^2)
    (hwarm : fleet.combatWarmup ≤ 0)
    (hkill : victim.colony.hp - fleet.damage.getD 10 * dt ≤ 0) :
    (resolveFleetCombatBase self victim fleet dt basePos aimPos true now).2.2.colony.owner_id
        = self.colony.owner_id ∧
    (resolveFleetCombatBase self victim fleet dt basePos aimPos true now).2.2.colony.colonyFleet
        = some [] ∧
    (resolveFleetCombatBase self victim fleet dt basePos aimPos true now).2.2.colony.hp
        = victim.colony.max_hp ∧
    (resolveFleetCombatBase self victim fleet dt basePos aimPos true now).2.1.state = "Idle" ∧
    (resolveFleetCombatBase self victim fleet dt basePos aimPos true now).2.1.target = none := by
  have h1 : ¬((30:ℚ)^2 < distSq3 fleet.position basePos) := not_lt.mpr hrange
  have h2 : ¬(0 < fleet.combatWarmup) := not_lt.mpr hwarm
  simp only [resolveFleetCombatBase, hbound, takeOverColony, markChanged, addActionEvent]
  simp [h1, h2, hkill]

def c2Victim : ColonyW :=
  { sampleColony with colony := { sampleModel with id := "c2", name := "Vega", hp := 1 } }

def c2Fleet : Fleet :=
  { id := "f1", type := "Flanker", label := none, count := 3
    position := ⟨0, 0, 0⟩, velocity := ⟨0, 0, 0⟩, state := "Attacking"
    tactic := "Offensive", hpPool := some 300, maxHP := some 100
    damage := some 15, speed := some 5, waypoints := some []
    target := some ⟨some "c2", none⟩, isAttacking := true
    combatWarmup := 0, homePosition := none }

/-- Witness for c2_base_kill_conquest at an in-range kill shot. -/
theorem c2_witness :
    (resolveFleetCombatBase sampleColony c2Victim c2Fleet 1 ⟨1, 0, 0⟩ ⟨1, 0, 2⟩ true 50).2.2.colony.owner_id
        = sampleColony.colony.owner_id ∧
    (resolveFleetCombatBase sampleColony c2Victim c2Fleet 1 ⟨1, 0, 0⟩ ⟨1, 0, 2⟩ true 50).2.2.colony.colonyFleet
        = some [] ∧
    (resolveFleetCombatBase sampleColony c2Victim c2Fleet 1 ⟨1, 0, 0⟩ ⟨1, 0, 2⟩ true 50).2.2.colony.hp
        = c2Victim.colony.max_hp ∧
    (resolveFleetCombatBase sampleColony c2Victim c2Fleet 1 ⟨1, 0, 0⟩ ⟨1, 0, 2⟩ true 50).2.1.state = "Idle" ∧
    (resolveFleetCombatBase sampleColony c2Victim c2Fleet 1 ⟨1, 0, 0⟩ ⟨1, 0, 2⟩ true 50).2.1.target = none :=
  c2_base_kill_conquest sampleColony c2Victim c2Fleet 1 ⟨1, 0, 0⟩ ⟨1, 0, 2⟩ 50
    (by decide)
    (by norm_num [distSq3, c2Fleet])
    (by norm_num [c2Fleet])
    (by norm_num [c2Fleet, c2Victim, sampleColony, sampleModel])

lemma forceEngage_id (a f : Fleet) : (forceEngage a f).id = f.id := by
  simp only [forceEngage]
  split
  · split <;> rfl
  · rfl

lemma forceEngage_hpPool (a f : Fleet) : (forceEngage a f).hpPool = f.hpPool := by
  simp only [forceEngage]
  split
  · split <;> rfl
  · rfl

/-- Mutating one fleet by id with an (id, hpPool)-preserving function leaves
the (id, hpPool) projection of the list unchanged. -/
lemma updateFleetById_map_pres (l : List Fleet) (tid : String) (g : Fleet → Fleet)
    (hid : ∀ f, (g f).id = f.id) (hhp : ∀ f, (g f).hpPool = f.hpPool) :
    (updateFleetById l tid g).map (fun f => (f.id, f.hpPool))
      = l.map (fun f => (f.id, f.hpPool)) := by
  induction l with
  | nil => rfl
  | cons a l ih =>
    simp only [updateFleetById, List.map_cons] at *
    refine congrArg₂ _ ?_ ih
    split
    · simp [hid, hhp]
    · rfl

/-- C3: for an attacking fleet with an in-range, line-of-sight target (base
or fleet), a positive warmup timer at call entry means no damage in that
call (the target hp or hpPool is unchanged) and the timer is decremented by
delta_time; conversely damage occurs only in a call entered with the timer
already <= 0. -/
theorem c3_warmup_blocks_damage (self victim : ColonyW) (fleet : Fleet) (tid : String)
    (dt : ℚ) (basePos aimPos : Vector3) (now : ℚ)
    (hbound : targetBound fleet.target = true) :
    (distSq3 fleet.position basePos ≤ 30^2 →
      (0 < fleet.combatWarmup →
        (resolveFleetCombatBase self victim fleet dt basePos aimPos true now).2.2.colony.hp
            = victim.colony.hp ∧
        (resolveFleetCombatBase self victim fleet dt basePos aimPos true now).2.1.combatWarmup
            = fleet.combatWarmup - dt) ∧
      ((resolveFleetCombatBase self victim fleet dt basePos aimPos true now).2.2.colony.hp
          ≠ victim.colony.hp → fleet.combatWarmup ≤ 0)) ∧
    (∀ tf : Fleet,
      (victim.colony.colonyFleet.getD []).find? (fun f => f.id = tid) = some tf →
      distSq3 fleet.position tf.position ≤ 30^2 →
      (0 < fleet.combatWarmup →
        ((resolveFleetCombatFleet self victim fleet tid dt true now).2.2.colony.colonyFleet.getD []).map
            (fun f => (f.id, f.hpPool))
          = (victim.colony.colonyFleet.getD []).map (fun f => (f.id, f.hpPool)) ∧
        (resolveFleetCombatFleet self victim fleet tid dt true now).2.1.combatWarmup
            = fleet.combatWarmup - dt) ∧
      (((resolveFleetCombatFleet self victim fleet tid dt true now).2.2.colony.colonyFleet.getD []).map
            (fun f => (f.id, f.hpPool))
          ≠ (victim.colony.colonyFleet.getD []).map (fun f => (f.id, f.hpPool)) →
        fleet.combatWarmup ≤ 0)) := by
  constructor
  · intro hrangeB
    have h1 : ¬((30:ℚ)^2 < distSq3 fleet.position basePos) := not_lt.mpr hrangeB
    have hbase : ∀ hw : 0 < fleet.combatWarmup,
        (resolveFleetCombatBase self victim fleet dt basePos aimPos true now).2.2.colony.hp
            = victim.colony.hp ∧
        (resolveFleetCombatBase self victim fleet dt basePos aimPos true now).2.1.combatWarmup
            = fleet.combatWarmup - dt := by
      intro hw
      simp only [resolveFleetCombatBase, hbound]
      simp [h1, hw]
    refine ⟨hbase, ?_⟩
    intro hne
    by_contra hpos
    push_neg at hpos
    exact hne (hbase hpos).1
  · intro tf hfind hrangeF
    have h2 : ¬((30:ℚ)^2 < distSq3 fleet.position tf.position) := not_lt.mpr hrangeF
    have hfleet : ∀ hw : 0 < fleet.combatWarmup,
        ((resolveFleetCombatFleet self victim fleet tid dt true now).2.2.colony.colonyFleet.getD []).map
            (fun f => (f.id, f.hpPool))
          = (victim.colony.colonyFleet.getD []).map (fun f => (f.id, f.hpPool)) ∧
        (resolveFleetCombatFleet self victim fleet tid dt true now).2.1.combatWarmup
            = fleet.combatWarmup - dt := by
      intro hw
      simp only [resolveFleetCombatFleet, hbound, hfind]
      simp only [h2, if_pos hw]
      norm_num
      split
      · rfl
      · simp only [markChanged, Option.getD_some]
        exact updateFleetById_map_pres _ _ _ (forceEngage_id _) (forceEngage_hpPool _)
    refine ⟨hfleet, ?_⟩
    intro hne
    by_contra hpos
    push_neg at hpos
    exact hne (hfleet hpos).1

def c3Target : Fleet :=
  { id := "f2", type := "Fighter", label := none, count := 5
    position := ⟨1, 0, 0⟩, velocity := ⟨0, 0, 0⟩, state := "Patrolling"
    tactic := "Offensive", hpPool := some 400, maxHP := some 80
    damage := some 10, speed := some 6, waypoints := some []
    target := none, isAttacking := false, combatWarmup := 0, homePosition := none }

def c3Victim : ColonyW :=
  { sampleColony with colony :=
    { sampleModel with id := "c2", colonyFleet := some [c3Target] } }

def c3Attacker : Fleet :=
  { c2Fleet with target := some ⟨some "f2", none⟩, combatWarmup := 2 }

/-- Witness for c3_warmup_blocks_damage: an attacker in warmup deals no
damage to the fleet it is engaging and counts its timer down. -/
theorem c3_witness :
    ((resolveFleetCombatFleet sampleColony c3Victim c3Attacker "f2" (1/2)
        true 0).2.2.colony.colonyFleet.getD []).map (fun f => (f.id, f.hpPool))
      = (c3Victim.colony.colonyFleet.getD []).map (fun f => (f.id, f.hpPool)) ∧
    (resolveFleetCombatFleet sampleColony c3Victim c3Attacker "f2" (1/2) true 0).2.1.combatWarmup
      = c3Attacker.combatWarmup - 1/2 :=
  ((c3_warmup_blocks_damage sampleColony c3Victim c3Attacker "f2" (1/2) ⟨1, 0, 0⟩ ⟨1, 0, 2⟩ 0
      (by decide)).2 c3Target
    (by rfl)
    (by norm_num [distSq3, c3Attacker, c2Fleet, c3Target])).1 (by norm_num [c3Attacker, c2Fleet])

/-- Position search depends only on the main base and the structure lists. -/
lemma getRandomValidPosition_eq_of (cfg : Config) (c d : ColonyW)
    (hbase : d.colony.planet.planetMainBase = c.colony.planet.planetMainBase)
    (hp : d.pumps = c.pumps) (hf : d.factories = c.factories) (draws : List Vector2) :
    getRandomValidPosition cfg d draws = getRandomValidPosition cfg c draws := by
  unfold getRandomValidPosition
  congr 1
  funext p
  unfold isPositionValid
  rw [hbase, hp, hf]

/-- C5: when the build checks pass but rejection sampling finds no valid
position, build_oil_pump and build_steel_factory refund the deducted cost
(net storages unchanged), append no structure, emit no event, and return
None. -/
theorem c5_placement_failure_refund (cfg : Config) (c : ColonyW)
    (draws1 draws2 : List Vector2) (now1 now2 : ℚ) :
    (canBuildOilPump cfg c = true →
     getRandomValidPosition cfg c draws1 = none →
     (buildOilPump cfg c draws1 now1).2 = none ∧
     (buildOilPump cfg c draws1 now1).1.res = c.res ∧
     (buildOilPump cfg c draws1 now1).1.pumps = c.pumps ∧
     (buildOilPump cfg c draws1 now1).1.factories = c.factories ∧
     (buildOilPump cfg c draws1 now1).1.actionEvents = c.actionEvents) ∧
    (canBuildSteelFactory cfg c = true →
     getRandomValidPosition cfg c draws2 = none →
     (buildSteelFactory cfg c draws2 now2).2 = none ∧
     (buildSteelFactory cfg c draws2 now2).1.res = c.res ∧
     (buildSteelFactory cfg c draws2 now2).1.pumps = c.pumps ∧
     (buildSteelFactory cfg c draws2 now2).1.factories = c.factories ∧
     (buildSteelFactory cfg c draws2 now2).1.actionEvents = c.actionEvents) := by
  constructor
  · intro hcan1 hfail1
    simp only [buildOilPump, hcan1]
    norm_num
    rw [getRandomValidPosition_eq_of cfg c _ (by rfl) (by rfl) (by rfl), hfail1]
    refine ⟨rfl, ?_, rfl, rfl, rfl⟩
    simp only [ColonyW.setRes, ColonyW.setPumps, ColonyW.res, ColonyW.pumps]
    norm_num
  · intro hcan2 hfail2
    simp only [buildSteelFactory, hcan2]
    norm_num
    rw [getRandomValidPosition_eq_of cfg c _ (by rfl) (by rfl) (by rfl), hfail2]
    refine ⟨rfl, ?_, rfl, rfl, rfl⟩
    simp only [ColonyW.setRes, ColonyW.setFactories, ColonyW.res, ColonyW.factories]
    norm_num

/-- Witness for c5_placement_failure_refund: a single draw on top of the
main base is rejected by the minimum-distance rule. -/
theorem c5_witness :
    (buildOilPump sampleCfg sampleColony [⟨0, 0⟩] 7).2 = none ∧
    (buildOilPump sampleCfg sampleColony [⟨0, 0⟩] 7).1.res = sampleColony.res ∧
    (buildSteelFactory sampleCfg sampleColony [⟨0, 0⟩] 7).2 = none ∧
    (buildSteelFactory sampleCfg sampleColony [⟨0, 0⟩] 7).1.res = sampleColony.res := by
  have h := c5_placement_failure_refund sampleCfg sampleColony [⟨0, 0⟩] [⟨0, 0⟩] 7 7
  have h1 := h.1 (by decide)
    (by norm_num [getRandomValidPosition, isPositionValid, distSq2, List.find?,
      sampleColony, sampleModel, samplePlanet, sampleCfg, ColonyW.pumps, ColonyW.factories])
  have h2 := h.2 (by decide)
    (by norm_num [getRandomValidPosition, isPositionValid, distSq2, List.find?,
      sampleColony, sampleModel, samplePlanet, sampleCfg, ColonyW.pumps, ColonyW.factories])
  exact ⟨h1.1, h1.2.1, h2.1, h2.2.1⟩

lemma dictSet_self_mem (l : List (String × DVal)) (k : String) (v : DVal) :
    (k, v) ∈ dictSet l k v := by
  unfold dictSet
  split
  · rename_i h
    rw [List.any_eq_true] at h
    obtain ⟨kv, hkv, he⟩ := h
    rw [List.mem_map]
    refine ⟨kv, hkv, ?_⟩
    simp only [decide_eq_true_eq] at he
    simp [he]
  · simp

lemma dictSet_mem_of_ne_key (l : List (String × DVal)) (k : String) (v : DVal)
    (kv : String × DVal) (hm : kv ∈ dictSet l k v) (hne : kv.1 ≠ k) : kv ∈ l := by
  unfold dictSet at hm
  split at hm
  · rw [List.mem_map] at hm
    obtain ⟨a, ha, he⟩ := hm
    by_cases hak : a.1 = k
    · rw [if_pos hak] at he
      rw [← he] at hne
      exact absurd rfl hne
    · rw [if_neg hak] at he
      rw [← he]
      exact ha
  · rw [List.mem_append] at hm
    rcases hm with h | h
    · exact h
    · simp only [List.mem_singleton] at h
      rw [h] at hne
      exact absurd rfl hne

lemma dictSet_mem_of_mem_ne (l : List (String × DVal)) (k : String) (v : DVal)
    (kv : String × DVal) (hm : kv ∈ l) (hne : kv.1 ≠ k) : kv ∈ dictSet l k v := by
  unfold dictSet
  split
  · rw [List.mem_map]
    exact ⟨kv, hm, by rw [if_neg hne]⟩
  · exact List.mem_append_left _ hm

/-- C8 (amended): get_changes returns None exactly when no change has been
marked; otherwise it returns the fields whose value differs from the
last-read snapshot together with the colony id, which is always included
even when unchanged, and it clears the dirty flag so that an immediately
repeated call returns None. -/
theorem c8_change_diff (c : ColonyW) :
    ((getChanges c).2 = none ↔ c.hasChanges = false) ∧
    (∀ l, (getChanges c).2 = some l →
      ("id", DVal.vstr c.colony.id) ∈ l ∧
      (∀ kv ∈ l, kv.1 ≠ "id" →
        kv ∈ colonyDict c.colony ∧ dictGet c.prevState kv.1 ≠ some kv.2) ∧
      (∀ kv ∈ colonyDict c.colony, kv.1 ≠ "id" →
        dictGet c.prevState kv.1 ≠ some kv.2 → kv ∈ l)) ∧
    (getChanges (getChanges c).1).2 = none := by
  cases hc : c.hasChanges
  · simp [getChanges, hc]
  · refine ⟨by simp [getChanges, hc], ?_, by simp [getChanges, hc]⟩
    intro l hl
    simp only [getChanges, hc] at hl
    norm_num at hl
    subst hl
    refine ⟨dictSet_self_mem _ _ _, ?_, ?_⟩
    · intro kv hkv hne
      have hmem := dictSet_mem_of_ne_key _ _ _ _ hkv hne
      rw [List.mem_filter] at hmem
      refine ⟨hmem.1, ?_⟩
      have hp := hmem.2
      cases hd : dictGet c.prevState kv.1 with
      | none => simp [hd]
      | some v =>
        rw [hd] at hp
        simp only [ne_eq, Option.some.injEq]
        simpa using hp
    · intro kv hkv hne hd
      apply dictSet_mem_of_mem_ne _ _ _ _ ?_ hne
      rw [List.mem_filter]
      refine ⟨hkv, ?_⟩
      cases h2 : dictGet c.prevState kv.1 with
      | none => simp [h2]
      | some v =>
        rw [h2] at hd
        simp only [h2]
        simp only [Bool.not_eq_true', decide_eq_false_iff_not]
        intro he
        exact hd (by rw [he])

/-- Witness for c8_change_diff: after a resident change on the sample
colony, the diff contains the colony id entry. -/
theorem c8_witness :
    ("id", DVal.vstr (changeResidents sampleColony 5).colony.id)
      ∈ [("residents", DVal.vint 105), ("id", DVal.vstr "c1")] :=
  ((c8_change_diff (changeResidents sampleColony 5)).2.1
    [("residents", DVal.vint 105), ("id", DVal.vstr "c1")] (by decide)).1

/-- The diff that get_changes is specified to return, stated from the words
of the spec: exactly the subset of top-level fields whose current value
differs from the last-read snapshot, None when no change was marked.  Used
only to compare against the implementation. -/
def specExactDiff (c : ColonyW) : Option (List (String × DVal)) :=
  if c.hasChanges = false then none
  else some ((colonyDict c.colony).filter (fun kv => dictGet c.prevState kv.1 ≠ some kv.2))

/-- Counterexample to C8 as stated: after changing residents of the sample
colony, get_changes returns the residents entry plus an id entry although
the id is unchanged from the snapshot, so the result is not exactly the
subset of differing fields. -/
theorem c8_counterexample :
    (getChanges (changeResidents sampleColony 5)).2
      ≠ specExactDiff (changeResidents sampleColony 5) := by decide

/-! ## C7: obstructed segments get detours -/

/-- The point of the straight segment from a to b at parameter t. -/
def lerp3 (a b : Vector3) (t : ℚ) : Vector3 :=
  ⟨a.x + t * (b.x - a.x), a.y + t * (b.y - a.y), a.z + t * (b.z - a.z)⟩

/-- The straight segment from a to b passes strictly within the sphere of
the given radius around center: some point of the segment is closer to the
center than the radius.  This is the geometric reading of the claim. -/
def SegmentHitsSphere (a b center : Vector3) (radius : ℚ) : Prop :=
  ∃ t : ℚ, 0 ≤ t ∧ t ≤ 1 ∧ distSq3 (lerp3 a b t) center < radius^2

lemma distSq3_eq_zero_iff (p q : Vector3) : distSq3 p q = 0 ↔ p = q := by
  unfold distSq3
  constructor
  · intro h
    have hx2 : (p.x - q.x)^2 = 0 := by
      nlinarith [sq_nonneg (p.x - q.x), sq_nonneg (p.y - q.y), sq_nonneg (p.z - q.z)]
    have hy2 : (p.y - q.y)^2 = 0 := by
      nlinarith [sq_nonneg (p.x - q.x), sq_nonneg (p.y - q.y), sq_nonneg (p.z - q.z)]
    have hz2 : (p.z - q.z)^2 = 0 := by
      nlinarith [sq_nonneg (p.x - q.x), sq_nonneg (p.y - q.y), sq_nonneg (p.z - q.z)]
    have hx := sub_eq_zero.mp (pow_eq_zero_iff two_ne_zero |>.mp hx2)
    have hy := sub_eq_zero.mp (pow_eq_zero_iff two_ne_zero |>.mp hy2)
    have hz := sub_eq_zero.mp (pow_eq_zero_iff two_ne_zero |>.mp hz2)
    cases p; cases q; simp_all
  · intro h
    subst h
    ring

/-- The squared segment-point distance is a quadratic in the parameter. -/
lemma distSq3_lerp (s e center : Vector3) (u : ℚ) :
    distSq3 (lerp3 s e u) center
      = distSq3 e s * u^2
          - 2 * ((center.x - s.x) * (e.x - s.x) + (center.y - s.y) * (e.y - s.y)
                  + (center.z - s.z) * (e.z - s.z)) * u
          + distSq3 center s := by
  simp only [distSq3, lerp3]
  ring

/-- The clamped projection parameter minimises a positive-leading quadratic
over the unit interval. -/
lemma quad_clamp_min (L B C : ℚ) (hL : 0 < L) (u : ℚ) (hu0 : 0 ≤ u) (hu1 : u ≤ 1) :
    L * (max 0 (min 1 (B / L)))^2 - 2 * B * (max 0 (min 1 (B / L))) + C
      ≤ L * u^2 - 2 * B * u + C := by
  have hB : B = L * (B / L) := by field_simp
  set th := B / L with hth
  rcases le_or_lt th 0 with h0 | h0
  · have hct : max 0 (min 1 th) = 0 := by
      rw [min_eq_right (le_trans h0 zero_le_one), max_eq_left h0]
    rw [hct, hB]
    have h1 : 0 ≤ L * u^2 := by positivity
    have h2 : 0 ≤ -(L * th) * u :=
      mul_nonneg (by nlinarith) hu0
    nlinarith
  · rcases le_or_lt th 1 with h1 | h1
    · have hct : max 0 (min 1 th) = th := by
        rw [min_eq_right h1, max_eq_right h0.le]
      rw [hct, hB]
      nlinarith [mul_nonneg hL.le (sq_nonneg (u - th))]
    · have hct : max 0 (min 1 th) = 1 := by
        rw [min_eq_left h1.le, max_eq_right zero_le_one]
      rw [hct, hB]
      have hfac : 0 ≤ (1 - u) * (2 * th - (u + 1)) :=
        mul_nonneg (by linarith) (by linarith)
      nlinarith [mul_nonneg hL.le hfac]

set_option maxHeartbeats 1000000 in
/-- For a nondegenerate segment, the some/none decision of
_get_detour_point coincides with the geometric strictly-within-radius
predicate. -/
lemma getDetourCond_iff (s e center : Vector3) (radius : ℚ) (hne : s ≠ e) :
    getDetourCond s e center radius = true ↔ SegmentHitsSphere s e center radius := by
  have hL0 : distSq3 e s ≠ 0 := by
    rw [ne_eq, distSq3_eq_zero_iff]
    exact fun h => hne h.symm
  have hLpos : 0 < distSq3 e s :=
    lt_of_le_of_ne (by unfold distSq3; positivity) (Ne.symm hL0)
  have hL0e : ¬((e.x - s.x)^2 + (e.y - s.y)^2 + (e.z - s.z)^2 = 0) := by
    simpa [distSq3] using hL0
  simp only [getDetourCond]
  rw [if_neg hL0e, decide_eq_true_eq]
  set B := (center.x - s.x) * (e.x - s.x) + (center.y - s.y) * (e.y - s.y)
    + (center.z - s.z) * (e.z - s.z) with hBdef
  set L := (e.x - s.x)^2 + (e.y - s.y)^2 + (e.z - s.z)^2 with hLdef
  have hLL : L = distSq3 e s := by simp [hLdef, distSq3]
  set ct := max 0 (min 1 (B / L)) with hctdef
  have hct0 : 0 ≤ ct := le_max_left _ _
  have hct1 : ct ≤ 1 := max_le (by norm_num) (min_le_left _ _)
  have hdval : (s.x + ct * (e.x - s.x) - center.x)^2 + (s.y + ct * (e.y - s.y) - center.y)^2
      + (s.z + ct * (e.z - s.z) - center.z)^2 = distSq3 (lerp3 s e ct) center := by
    simp [distSq3, lerp3]
  constructor
  · intro h
    exact ⟨ct, hct0, hct1, by rw [← hdval]; nlinarith [h]⟩
  · rintro ⟨u, hu0, hu1, hu⟩
    rw [hdval]
    have hmin := quad_clamp_min (distSq3 e s) B (distSq3 center s) hLpos u hu0 hu1
    rw [← hLL] at hmin
    rw [distSq3_lerp] at hu
    rw [← hBdef] at hu
    rw [← hLL] at hu
    have := le_trans hmin (le_of_lt hu)
    rw [distSq3_lerp, ← hBdef, ← hLL]
    nlinarith [lt_of_le_of_lt hmin hu]

lemma pickStep_isSome_of_acc (dp : Vector3 → Vector3 → Vector3 → ℚ → Vector3)
    (cfg : Config) (s e : Vector3) (acc : Option (ℚ × Vector3)) (col : ColonyW)
    (h : acc.isSome = true) : (pickStep dp cfg s e acc col).isSome = true := by
  cases hcond : getDetourCond s e col.colony.planet.position (planetSafeRadius cfg col) with
  | false => simpa [pickStep, getDetourPoint, hcond] using h
  | true =>
    cases acc with
    | none => simp at h
    | some best =>
      simp only [pickStep, getDetourPoint, hcond]
      norm_num
      split <;> simp

lemma pickStep_isSome_of_cond (dp : Vector3 → Vector3 → Vector3 → ℚ → Vector3)
    (cfg : Config) (s e : Vector3) (acc : Option (ℚ × Vector3)) (col : ColonyW)
    (h : getDetourCond s e col.colony.planet.position (planetSafeRadius cfg col) = true) :
    (pickStep dp cfg s e acc col).isSome = true := by
  cases acc with
  | none => simp [pickStep, getDetourPoint, h]
  | some best =>
    simp only [pickStep, getDetourPoint, h]
    norm_num
    split <;> simp

lemma pickBestDetour_isSome (dp : Vector3 → Vector3 → Vector3 → ℚ → Vector3)
    (cfg : Config) (s e : Vector3) (cols : List ColonyW)
    (h : ∃ col ∈ cols,
      getDetourCond s e col.colony.planet.position (planetSafeRadius cfg col) = true) :
    (pickBestDetour dp cfg s e cols).isSome = true := by
  unfold pickBestDetour
  rw [Option.isSome_map']
  suffices hgen : ∀ (acc : Option (ℚ × Vector3)), acc.isSome = true ∨ (∃ col ∈ cols,
      getDetourCond s e col.colony.planet.position (planetSafeRadius cfg col) = true) →
      (cols.foldl (pickStep dp cfg s e) acc).isSome = true by
    exact hgen none (Or.inr h)
  clear h
  induction cols with
  | nil =>
    intro acc h
    rcases h with h | ⟨col, hm, _⟩
    · simpa using h
    · cases hm
  | cons a l ih =>
    intro acc h
    rw [List.foldl_cons]
    apply ih
    rcases h with h | ⟨col, hm, hc⟩
    · exact Or.inl (pickStep_isSome_of_acc dp cfg s e acc a h)
    · rcases List.mem_cons.mp hm with rfl | hm2
      · exact Or.inl (pickStep_isSome_of_cond dp cfg s e acc col hc)
      · exact Or.inr ⟨col, hm2, hc⟩

lemma pickBestDetour_eq_none (dp : Vector3 → Vector3 → Vector3 → ℚ → Vector3)
    (cfg : Config) (s e : Vector3) (cols : List ColonyW)
    (h : ∀ col ∈ cols,
      getDetourCond s e col.colony.planet.position (planetSafeRadius cfg col) = false) :
    pickBestDetour dp cfg s e cols = none := by
  unfold pickBestDetour
  suffices hgen : cols.foldl (pickStep dp cfg s e) none = none by
    rw [hgen]; rfl
  induction cols with
  | nil => rfl
  | cons a l ih =>
    rw [List.foldl_cons]
    have hstep : pickStep dp cfg s e none a = none := by
      simp [pickStep, getDetourPoint, h a (List.mem_cons_self a l)]
    rw [hstep]
    exact ih (fun col hm => h col (List.mem_cons_of_mem a hm))

lemma genF_succ (dp : Vector3 → Vector3 → Vector3 → ℚ → Vector3) (cfg : Config)
    (cols : List ColonyW) (fuel : ℕ) (s e : Vector3) :
    generatePathWaypointsF dp cfg cols (fuel + 1) s e
      = if cols = [] then [e]
        else
          match pickBestDetour dp cfg s e cols with
          | none => [e]
          | some det =>
            generatePathWaypointsF dp cfg cols fuel s det ++
            generatePathWaypointsF dp cfg cols fuel det e := rfl

lemma genF_ne_nil (dp : Vector3 → Vector3 → Vector3 → ℚ → Vector3) (cfg : Config)
    (cols : List ColonyW) :
    ∀ (fuel : ℕ) (s e : Vector3), generatePathWaypointsF dp cfg cols fuel s e ≠ [] := by
  intro fuel
  induction fuel with
  | zero => intro s e; simp [generatePathWaypointsF]
  | succ n ih =>
    intro s e
    simp only [generatePathWaypointsF]
    split
    · simp
    · cases h : pickBestDetour dp cfg s e cols with
      | none => simp
      | some det =>
        simp only [h]
        intro happ
        exact ih s det (List.append_eq_nil.mp happ).1

lemma genF_getLast (dp : Vector3 → Vector3 → Vector3 → ℚ → Vector3) (cfg : Config)
    (cols : List ColonyW) :
    ∀ (fuel : ℕ) (s e : Vector3),
      (generatePathWaypointsF dp cfg cols fuel s e).getLast? = some e := by
  intro fuel
  induction fuel with
  | zero => intro s e; simp [generatePathWaypointsF]
  | succ n ih =>
    intro s e
    simp only [generatePathWaypointsF]
    split
    · simp
    · cases h : pickBestDetour dp cfg s e cols with
      | none => simp
      | some det =>
        simp only [h]
        rw [List.getLast?_append_of_ne_nil _ (genF_ne_nil dp cfg cols n det e)]
        exact ih det e

/-- C7 (amended with start different from end): for a nonempty colony list,
a segment that passes within some planet enlarged safety radius is replaced
by at least two waypoints ending at the requested endpoint, and a segment
obstructed by no planet yields exactly the direct endpoint. -/
theorem c7_path_detour (dp : Vector3 → Vector3 → Vector3 → ℚ → Vector3) (cfg : Config)
    (cols : List ColonyW) (s e : Vector3) (hne : s ≠ e) (hcols : cols ≠ []) :
    ((∃ col ∈ cols,
        SegmentHitsSphere s e col.colony.planet.position (planetSafeRadius cfg col)) →
      2 ≤ (generatePathWaypoints dp cfg cols s e 0).length ∧
      (generatePathWaypoints dp cfg cols s e 0).getLast? = some e) ∧
    ((∀ col ∈ cols,
        ¬ SegmentHitsSphere s e col.colony.planet.position (planetSafeRadius cfg col)) →
      generatePathWaypoints dp cfg cols s e 0 = [e]) := by
  constructor
  · rintro ⟨col, hm, hhit⟩
    have hcond : getDetourCond s e col.colony.planet.position (planetSafeRadius cfg col)
        = true := (getDetourCond_iff s e _ _ hne).mpr hhit
    have hsome := pickBestDetour_isSome dp cfg s e cols ⟨col, hm, hcond⟩
    constructor
    · rw [generatePathWaypoints]
      show 2 ≤ (generatePathWaypointsF dp cfg cols (2 + 1) s e).length
      rw [genF_succ, if_neg hcols]
      cases h : pickBestDetour dp cfg s e cols with
      | none => rw [h] at hsome; simp at hsome
      | some det =>
        simp only [h, List.length_append]
        have h1 := genF_ne_nil dp cfg cols 2 s det
        have h2 := genF_ne_nil dp cfg cols 2 det e
        have l1 : 1 ≤ (generatePathWaypointsF dp cfg cols 2 s det).length :=
          Nat.one_le_iff_ne_zero.mpr (fun hz => h1 (List.eq_nil_of_length_eq_zero hz))
        have l2 : 1 ≤ (generatePathWaypointsF dp cfg cols 2 det e).length :=
          Nat.one_le_iff_ne_zero.mpr (fun hz => h2 (List.eq_nil_of_length_eq_zero hz))
        omega
    · exact genF_getLast dp cfg cols 3 s e
  · intro hnone
    have hcond : ∀ col ∈ cols,
        getDetourCond s e col.colony.planet.position (planetSafeRadius cfg col) = false := by
      intro col hm
      rcases Bool.eq_false_or_eq_true
        (getDetourCond s e col.colony.planet.position (planetSafeRadius cfg col)) with h | h
      · exact absurd ((getDetourCond_iff s e _ _ hne).mp h) (hnone col hm)
      · exact h
    rw [generatePathWaypoints]
    show generatePathWaypointsF dp cfg cols (2 + 1) s e = [e]
    rw [genF_succ, if_neg hcols, pickBestDetour_eq_none dp cfg s e cols hcond]

/-- An arbitrary instantiation of the abstract detour-point coordinates,
used to evaluate the path generator on concrete inputs. -/
def c7Dp : Vector3 → Vector3 → Vector3 → ℚ → Vector3 := fun _ _ _ _ => ⟨0, 0, 0⟩

/-- Witness for c7_path_detour: a segment through the sample planet center
is replaced by a detour path ending at the endpoint. -/
theorem c7_witness :
    2 ≤ (generatePathWaypoints c7Dp sampleCfg [sampleColony] ⟨10, 0, 0⟩ ⟨-10, 0, 0⟩ 0).length ∧
    (generatePathWaypoints c7Dp sampleCfg [sampleColony] ⟨10, 0, 0⟩ ⟨-10, 0, 0⟩ 0).getLast?
      = some ⟨-10, 0, 0⟩ :=
  (c7_path_detour c7Dp sampleCfg [sampleColony] ⟨10, 0, 0⟩ ⟨-10, 0, 0⟩
    (by decide) (by decide)).1
    ⟨sampleColony, by simp, ⟨1/2, by norm_num, by norm_num,
      by norm_num [distSq3, lerp3, planetSafeRadius, sampleColony, sampleModel,
        samplePlanet, sampleCfg]⟩⟩

/-- Counterexample to C7 as stated: the degenerate segment whose start and
end coincide at the sample planet center passes within the enlarged safety
radius, yet _generate_path_waypoints returns the single direct endpoint
(_get_detour_point bails out on a zero-length segment). -/
theorem c7_counterexample :
    SegmentHitsSphere ⟨0, 0, 0⟩ ⟨0, 0, 0⟩ sampleColony.colony.planet.position
      (planetSafeRadius sampleCfg sampleColony) ∧
    generatePathWaypoints c7Dp sampleCfg [sampleColony] ⟨0, 0, 0⟩ ⟨0, 0, 0⟩ 0
      = [⟨0, 0, 0⟩] := by
  constructor
  · exact ⟨0, le_refl 0, by norm_num,
      by norm_num [distSq3, lerp3, planetSafeRadius, sampleColony, sampleModel,
        samplePlanet, sampleCfg]⟩
  · norm_num [generatePathWaypoints, generatePathWaypointsF, pickBestDetour, pickStep,
      getDetourPoint, getDetourCond]

/-! ## C1: non-negativity invariant -/

lemma foldl_add_mul_nonneg {α : Type} (f : α → ℚ) (ticks : ℚ) (l : List α) (init : ℚ)
    (h0 : 0 ≤ init) (ht : 0 ≤ ticks) (hf : ∀ a ∈ l, 0 ≤ f a) :
    0 ≤ l.foldl (fun acc a => acc + f a * ticks) init := by
  induction l generalizing init with
  | nil => simpa using h0
  | cons a l ih =>
    rw [List.foldl_cons]
    exact ih _ (add_nonneg h0 (mul_nonneg (hf a (List.mem_cons_self a l)) ht))
      (fun b hb => hf b (List.mem_cons_of_mem a hb))

lemma valid_changeResidents (c : ColonyW) (d : ℤ) (h : ValidState c) :
    ValidState (changeResidents c d) := by
  unfold ValidState at h ⊢
  obtain ⟨_, h2, h3, h4, h5, h6, h7, h8, h9⟩ := h
  exact ⟨le_max_left 0 _, h2, h3, h4, h5, h6, h7, h8, h9⟩

lemma valid_accumulate (cfg : Config) (c : ColonyW) (dt : ℚ) (h : ValidState c) :
    ValidState (accumulateResources cfg c dt) := by
  unfold ValidState at h ⊢
  obtain ⟨h1, _, _, _, h5, h6, h7, h8, h9⟩ := h
  exact ⟨h1, le_max_left 0 _, le_max_left 0 _, le_max_left 0 _, h5, h6, h7, h8, h9⟩

lemma valid_produceOil (cfg : Config) (c : ColonyW) (dt : ℚ)
    (hcfg : 0 < cfg.residentUpdateInterval) (hdt : 0 ≤ dt) (h : ValidState c) :
    ValidState (produceOilFromPumps cfg c dt) := by
  unfold ValidState at h ⊢
  obtain ⟨h1, h2, h3, h4, h5, h6, h7, h8, h9⟩ := h
  unfold produceOilFromPumps
  split
  · exact ⟨h1, h2, h3, h4, h5, h6, h7, h8, h9⟩
  · refine ⟨h1, ?_, h3, h4, h5, h6, h7, h8, h9⟩
    simp only [markChanged, ColonyW.setRes, ColonyW.res, ColonyW.pumps]
    simp only [ColonyW.res, ColonyW.pumps] at h2 h8
    exact foldl_add_mul_nonneg (fun p : OilPump => p.production) _ _ _ h2
      (div_nonneg hdt hcfg.le) h8

lemma valid_produceSteel (cfg : Config) (c : ColonyW) (dt : ℚ)
    (hcfg : 0 < cfg.residentUpdateInterval) (hdt : 0 ≤ dt) (h : ValidState c) :
    ValidState (produceSteelFromFactories cfg c dt) := by
  unfold ValidState at h ⊢
  obtain ⟨h1, h2, h3, h4, h5, h6, h7, h8, h9⟩ := h
  unfold produceSteelFromFactories
  split
  · exact ⟨h1, h2, h3, h4, h5, h6, h7, h8, h9⟩
  · refine ⟨h1, h2, ?_, h4, h5, h6, h7, h8, h9⟩
    simp only [markChanged, ColonyW.setRes, ColonyW.res, ColonyW.factories]
    simp only [ColonyW.res, ColonyW.factories] at h3 h9
    exact foldl_add_mul_nonneg (fun f : SteelFactory => f.production) _ _ _ h3
      (div_nonneg hdt hcfg.le) h9

lemma canBuildOilPump_cost_le (cfg : Config) (c : ColonyW)
    (h : canBuildOilPump cfg c = true) :
    cfg.oilPumpSteelCost ≤ c.res.steelStorage := by
  unfold canBuildOilPump at h
  split_ifs at h with h1 h2 h3
  exact le_of_not_lt h3

lemma canBuildSteelFactory_cost_le (cfg : Config) (c : ColonyW)
    (h : canBuildSteelFactory cfg c = true) :
    cfg.steelFactoryOilCost ≤ c.res.oilStorage := by
  unfold canBuildSteelFactory at h
  split_ifs at h with h1 h2 h3
  exact le_of_not_lt h3

set_option maxHeartbeats 1000000 in
lemma valid_buildOilPump (cfg : Config) (c : ColonyW) (draws : List Vector2) (now : ℚ)
    (h : ValidState c) : ValidState (buildOilPump cfg c draws now).1 := by
  unfold ValidState at h ⊢
  obtain ⟨h1, h2, h3, h4, h5, h6, h7, h8, h9⟩ := h
  unfold buildOilPump
  cases hcan : canBuildOilPump cfg c with
  | false => exact ⟨h1, h2, h3, h4, h5, h6, h7, h8, h9⟩
  | true =>
    have hle := canBuildOilPump_cost_le cfg c hcan
    simp only [ColonyW.res] at hle h2 h3 h5
    simp only [ColonyW.pumps] at h8
    norm_num
    split
    · refine ⟨h1, h2, ?_, h4, h5, h6, h7, h8, h9⟩
      simp only [ColonyW.setRes, ColonyW.setPumps, ColonyW.res, ColonyW.pumps]
      linarith
    · refine ⟨h1, h2, ?_, h4, h5, h6, h7, ?_, h9⟩
      · simp only [addActionEvent, markChanged, ColonyW.setRes, ColonyW.setPumps,
          ColonyW.res, ColonyW.pumps]
        linarith
      · intro p hp
        simp only [addActionEvent, markChanged, ColonyW.setRes, ColonyW.setPumps,
          ColonyW.res, ColonyW.pumps, Option.getD_some, List.mem_append,
          List.mem_singleton] at hp
        rcases hp with hp | hp
        · exact h8 p hp
        · rw [hp]
          exact h5

set_option maxHeartbeats 1000000 in
lemma valid_buildSteelFactory (cfg : Config) (c : ColonyW) (draws : List Vector2) (now : ℚ)
    (h : ValidState c) : ValidState (buildSteelFactory cfg c draws now).1 := by
  unfold ValidState at h ⊢
  obtain ⟨h1, h2, h3, h4, h5, h6, h7, h8, h9⟩ := h
  unfold buildSteelFactory
  cases hcan : canBuildSteelFactory cfg c with
  | false => exact ⟨h1, h2, h3, h4, h5, h6, h7, h8, h9⟩
  | true =>
    have hle := canBuildSteelFactory_cost_le cfg c hcan
    simp only [ColonyW.res] at hle h2 h3 h6
    simp only [ColonyW.factories] at h9
    norm_num
    split
    · refine ⟨h1, ?_, h3, h4, h5, h6, h7, h8, h9⟩
      simp only [ColonyW.setRes, ColonyW.setFactories, ColonyW.res, ColonyW.factories]
      linarith
    · refine ⟨h1, ?_, h3, h4, h5, h6, h7, h8, ?_⟩
      · simp only [addActionEvent, markChanged, ColonyW.setRes, ColonyW.setFactories,
          ColonyW.res, ColonyW.factories]
        linarith
      · intro f hf
        simp only [addActionEvent, markChanged, ColonyW.setRes, ColonyW.setFactories,
          ColonyW.res, ColonyW.factories, Option.getD_some, List.mem_append,
          List.mem_singleton] at hf
        rcases hf with hf | hf
        · exact h9 f hf
        · rw [hf]
          exact h6

lemma canBuildFlankerGroup_cost_le (cfg : Config) (c : ColonyW) (now : ℚ)
    (h : canBuildFlankerGroup cfg c now = true) :
    cfg.flankerSteelCost ≤ c.res.steelStorage ∧ cfg.flankerOilCost ≤ c.res.oilStorage := by
  unfold canBuildFlankerGroup at h
  split_ifs at h with h1 h2 h3 h4 h5 h6
  exact ⟨le_of_not_lt h5, le_of_not_lt h6⟩

lemma canBuildFighterGroup_cost_le (cfg : Config) (c : ColonyW) (now : ℚ)
    (h : canBuildFighterGroup cfg c now = true) :
    cfg.fighterSteelCost ≤ c.res.steelStorage ∧ cfg.fighterOilCost ≤ c.res.oilStorage := by
  unfold canBuildFighterGroup at h
  split_ifs at h with h1 h2 h3 h4 h5 h6
  exact ⟨le_of_not_lt h5, le_of_not_lt h6⟩

lemma canBuildBomberGroup_cost_le (cfg : Config) (c : ColonyW) (now : ℚ)
    (h : canBuildBomberGroup cfg c now = true) :
    cfg.bomberSteelCost ≤ c.res.steelStorage ∧ cfg.bomberOilCost ≤ c.res.oilStorage := by
  unfold canBuildBomberGroup at h
  split_ifs at h with h1 h2 h3 h4 h5 h6
  exact ⟨le_of_not_lt h5, le_of_not_lt h6⟩

lemma canBuildScoutGroup_cost_le (cfg : Config) (c : ColonyW) (now : ℚ)
    (h : canBuildScoutGroup cfg c now = true) :
    cfg.scoutSteelCost ≤ c.res.steelStorage ∧ cfg.scoutOilCost ≤ c.res.oilStorage := by
  unfold canBuildScoutGroup at h
  split_ifs at h with h1 h2 h3 h4 h5 h6
  exact ⟨le_of_not_lt h5, le_of_not_lt h6⟩

set_option maxHeartbeats 1000000 in
lemma valid_buildFlanker (cfg : Config) (c : ColonyW) (now : ℚ) (spawn : Vector3)
    (gid : String) (ja : Bool) (j : Fleet → Fleet) (h : ValidState c) :
    ValidState (buildFlankerGroup cfg c now spawn gid ja j).1 := by
  unfold ValidState at h ⊢
  obtain ⟨h1, h2, h3, h4, h5, h6, h7, h8, h9⟩ := h
  unfold buildFlankerGroup
  cases hcan : canBuildFlankerGroup cfg c now with
  | false => exact ⟨h1, h2, h3, h4, h5, h6, h7, h8, h9⟩
  | true =>
    have hle := canBuildFlankerGroup_cost_le cfg c now hcan
    simp only [ColonyW.res] at hle h2 h3
    norm_num
    unfold buildFleetGroup
    refine ⟨h1, ?_, ?_, h4, h5, h6, h7, h8, h9⟩ <;>
      simp only [addActionEvent, markChanged, ColonyW.setRes, ColonyW.res] <;>
      linarith [hle.1, hle.2]

set_option maxHeartbeats 1000000 in
lemma valid_buildFighter (cfg : Config) (c : ColonyW) (now : ℚ) (spawn : Vector3)
    (gid : String) (ja : Bool) (j : Fleet → Fleet) (h : ValidState c) :
    ValidState (buildFighterGroup cfg c now spawn gid ja j).1 := by
  unfold ValidState at h ⊢
  obtain ⟨h1, h2, h3, h4, h5, h6, h7, h8, h9⟩ := h
  unfold buildFighterGroup
  cases hcan : canBuildFighterGroup cfg c now with
  | false => exact ⟨h1, h2, h3, h4, h5, h6, h7, h8, h9⟩
  | true =>
    have hle := canBuildFighterGroup_cost_le cfg c now hcan
    simp only [ColonyW.res] at hle h2 h3
    norm_num
    unfold buildFleetGroup
    refine ⟨h1, ?_, ?_, h4, h5, h6, h7, h8, h9⟩ <;>
      simp only [addActionEvent, markChanged, ColonyW.setRes, ColonyW.res] <;>
      linarith [hle.1, hle.2]

set_option maxHeartbeats 1000000 in
lemma valid_buildBomber (cfg : Config) (c : ColonyW) (now : ℚ) (spawn : Vector3)
    (gid : String) (ja : Bool) (j : Fleet → Fleet) (h : ValidState c) :
    ValidState (buildBomberGroup cfg c now spawn gid ja j).1 := by
  unfold ValidState at h ⊢
  obtain ⟨h1, h2, h3, h4, h5, h6, h7, h8, h9⟩ := h
  unfold buildBomberGroup
  cases hcan : canBuildBomberGroup cfg c now with
  | false => exact ⟨h1, h2, h3, h4, h5, h6, h7, h8, h9⟩
  | true =>
    have hle := canBuildBomberGroup_cost_le cfg c now hcan
    simp only [ColonyW.res] at hle h2 h3
    norm_num
    unfold buildFleetGroup
    refine ⟨h1, ?_, ?_, h4, h5, h6, h7, h8, h9⟩ <;>
      simp only [addActionEvent, markChanged, ColonyW.setRes, ColonyW.res] <;>
      linarith [hle.1, hle.2]

set_option maxHeartbeats 1000000 in
lemma valid_buildScout (cfg : Config) (c : ColonyW) (now : ℚ) (spawn : Vector3)
    (gid : String) (ja : Bool) (j : Fleet → Fleet) (h : ValidState c) :
    ValidState (buildScoutGroup cfg c now spawn gid ja j).1 := by
  unfold ValidState at h ⊢
  obtain ⟨h1, h2, h3, h4, h5, h6, h7, h8, h9⟩ := h
  unfold buildScoutGroup
  cases hcan : canBuildScoutGroup cfg c now with
  | false => exact ⟨h1, h2, h3, h4, h5, h6, h7, h8, h9⟩
  | true =>
    have hle := canBuildScoutGroup_cost_le cfg c now hcan
    simp only [ColonyW.res] at hle h2 h3
    norm_num
    unfold buildFleetGroup
    refine ⟨h1, ?_, ?_, h4, h5, h6, h7, h8, h9⟩ <;>
      simp only [addActionEvent, markChanged, ColonyW.setRes, ColonyW.res] <;>
      linarith [hle.1, hle.2]

set_option maxHeartbeats 1000000 in
lemma valid_upgrade (cfg : Config) (c : ColonyW) (now : ℚ) (h : ValidState c) :
    ValidState (checkAndUpgradeLevel cfg c now) := by
  unfold ValidState at h ⊢
  obtain ⟨h1, h2, h3, h4, h5, h6, h7, h8, h9⟩ := h
  unfold checkAndUpgradeLevel
  cases hn : getNextColonyLevel c.colony.colonyLevel with
  | none => simp only [hn]; exact ⟨h1, h2, h3, h4, h5, h6, h7, h8, h9⟩
  | some nl =>
    simp only [hn]
    split
    · cases ht : cfg.levelThresholds nl with
      | none => simp only [ht]; exact ⟨h1, h2, h3, h4, h5, h6, h7, h8, h9⟩
      | some th =>
        simp only [ht]
        refine ⟨h1, ?_, ?_, ?_, h5, h6, h7, h8, h9⟩ <;>
          simp only [addActionEvent, markChanged, ColonyW.setRes, ColonyW.res] <;>
          exact le_max_left (0 : ℚ) _
    · exact ⟨h1, h2, h3, h4, h5, h6, h7, h8, h9⟩

set_option maxHeartbeats 1000000 in
lemma valid_increase (cfg : Config) (c : ColonyW) (now : ℚ) (h : ValidState c) :
    ValidState (increaseResidents cfg c now) := by
  unfold ValidState at h ⊢
  obtain ⟨h1, h2, h3, h4, h5, h6, h7, h8, h9⟩ := h
  simp only [increaseResidents]
  split
  · norm_num
    exact ⟨h1, h2, h3, h4, h5, h6, h7, h8, h9⟩
  · split
    · exact ⟨le_max_left 0 _, h2, h3, h4, h5, h6, h7, h8, h9⟩
    · exact ⟨h1, h2, h3, h4, h5, h6, h7, h8, h9⟩

lemma valid_applyOp (cfg : Config) (c : ColonyW) (op : Op)
    (hcfg : 0 < cfg.residentUpdateInterval) (hop : opValid op = true) (h : ValidState c) :
    ValidState (applyOp cfg c op) := by
  cases op with
  | changeResidentsOp d => exact valid_changeResidents c d h
  | accumulateOp dt => exact valid_accumulate cfg c dt h
  | produceOilOp dt => exact valid_produceOil cfg c dt hcfg (by simpa [opValid] using hop) h
  | produceSteelOp dt =>
    exact valid_produceSteel cfg c dt hcfg (by simpa [opValid] using hop) h
  | buildOilPumpOp draws now => exact valid_buildOilPump cfg c draws now h
  | buildSteelFactoryOp draws now => exact valid_buildSteelFactory cfg c draws now h
  | buildFlankerOp now spawn gid ja j => exact valid_buildFlanker cfg c now spawn gid ja j h
  | buildFighterOp now spawn gid ja j => exact valid_buildFighter cfg c now spawn gid ja j h
  | buildBomberOp now spawn gid ja j => exact valid_buildBomber cfg c now spawn gid ja j h
  | buildScoutOp now spawn gid ja j => exact valid_buildScout cfg c now spawn gid ja j h
  | upgradeLevelOp now => exact valid_upgrade cfg c now h
  | increaseResidentsOp now => exact valid_increase cfg c now h

/-- C1: from a valid state (nonnegative residents, storages and generation
rates), any sequence of the resource- and resident-touching operations of
colony.update leaves residents and the three storages nonnegative. -/
theorem c1_nonneg_invariant (cfg : Config) (c : ColonyW) (ops : List Op)
    (hcfg : 0 < cfg.residentUpdateInterval) (hc : ValidState c)
    (hops : ∀ op ∈ ops, opValid op = true) :
    0 ≤ (applyOps cfg c ops).colony.residents ∧
    0 ≤ (applyOps cfg c ops).res.oilStorage ∧
    0 ≤ (applyOps cfg c ops).res.steelStorage ∧
    0 ≤ (applyOps cfg c ops).res.waterStorage := by
  have hall : ∀ (l : List Op) (d : ColonyW), ValidState d →
      (∀ op ∈ l, opValid op = true) → ValidState (applyOps cfg d l) := by
    intro l
    induction l with
    | nil =>
      intro d hd _
      simpa [applyOps] using hd
    | cons op l ih =>
      intro d hd hl
      have hstep : applyOps cfg d (op :: l) = applyOps cfg (applyOp cfg d op) l := rfl
      rw [hstep]
      exact ih _ (valid_applyOp cfg d op hcfg (hl op (List.mem_cons_self op l)) hd)
        (fun o ho => hl o (List.mem_cons_of_mem op ho))
  obtain ⟨g1, g2, g3, g4, _, _, _, _, _⟩ := hall ops c hc hops
  exact ⟨g1, g2, g3, g4⟩

/-- A small concrete operation sequence exercising accumulation, resident
change, production, upgrade, growth, and construction. -/
def c1Ops : List Op :=
  [ Op.accumulateOp 4
  , Op.changeResidentsOp (-30)
  , Op.produceOilOp 2
  , Op.produceSteelOp 2
  , Op.upgradeLevelOp 10
  , Op.increaseResidentsOp 11
  , Op.buildOilPumpOp [⟨0, 0⟩] 12
  , Op.buildSteelFactoryOp [⟨0, 0⟩] 12
  , Op.buildFlankerOp 13 ⟨0, 0, 3⟩ "g1" false id
  , Op.buildScoutOp 14 ⟨0, 0, 3⟩ "g2" false id ]

/-- Witness for c1_nonneg_invariant on the sample colony and c1Ops. -/
theorem c1_witness :
    0 ≤ (applyOps sampleCfg sampleColony c1Ops).colony.residents ∧
    0 ≤ (applyOps sampleCfg sampleColony c1Ops).res.oilStorage ∧
    0 ≤ (applyOps sampleCfg sampleColony c1Ops).res.steelStorage ∧
    0 ≤ (applyOps sampleCfg sampleColony c1Ops).res.waterStorage :=
  c1_nonneg_invariant sampleCfg sampleColony c1Ops (by decide) (by decide) (by decide)

end Exogenesis
